import Mathlib

/-!
Shallow embedding of `src/xml_generator.py` (class `XMLGenerator`) from the
repository `automate-crossref-population`, together with proofs of the
specification claims about it.

Modelling conventions:
* A spreadsheet cell value is `Cell`: either a missing marker (`pd.isna`
  holds, e.g. `NaN`/`None`) or the string obtained by Python `str(value)`.
  Numeric cells enter the model as their `str()` rendering.
* Python `str.strip()` is `trimChars` (whitespace removed from both ends).
* The regular expression character class `\d` is modelled as an ASCII digit
  (`Char.isDigit`); the spec likewise speaks of plain digits.
* `pandas.to_datetime(value, errors='coerce')` is an external library call; it
  is modelled as an arbitrary parameter `parse : Cell → Option Date`, where
  `none` stands for `NaT` (unparseable).  `Timestamp.strftime` with `%Y`,
  `%m`, `%d` is modelled by `pad4`/`pad2` (zero-padded digit renderings;
  pandas timestamps always have 4-digit years).
* Exception control flow (`raise ValueError`) becomes `Except String`.
* `generate_xml` calls `write_to_xml_file` only after the whole document has
  been combined in memory; the run is therefore modelled by `generateXml`,
  whose `.ok doc` result means "doc was fully assembled and then written" and
  whose `.error e` result means "the run aborted before any write".
-/

/-- A raw spreadsheet cell value: missing (`pd.isna`) or a string
(the result of Python `str(value)` for present values). -/
inductive Cell where
  | missing : Cell
  | str : String → Cell
deriving DecidableEq

/-- Python `str.strip()` on the underlying character list: whitespace
removed from both ends. -/
def trimChars (l : List Char) : List Char :=
  ((l.dropWhile Char.isWhitespace).reverse.dropWhile Char.isWhitespace).reverse

/-- `XMLGenerator._safe` (xml_generator.py:37-40): missing values become `''`,
everything else is converted to a string and stripped. -/
def safeC : Cell → String
  | Cell.missing => ""
  | Cell.str s => String.mk (trimChars s.data)

/-- Python `s.replace('-', '')`: remove every hyphen. -/
def stripHyphens (s : String) : String := String.mk (s.data.filter (fun c => c ≠ '-'))

/-- `re.fullmatch(r'\d{8}', s)` (xml_generator.py:45): exactly eight digits. -/
def digits8 (s : String) : Bool := s.data.length == 8 && s.data.all Char.isDigit

/-- `re.fullmatch(r'\d{4}-\d{3}[\dX]', s)` (xml_generator.py:47):
four digits, a hyphen, three digits, then a digit or `X`. -/
def issnPattern (s : String) : Bool :=
  match s.data with
  | [a, b, c, d, h, e, f, g, x] =>
      a.isDigit && b.isDigit && c.isDigit && d.isDigit && h == '-' &&
      e.isDigit && f.isDigit && g.isDigit && (x.isDigit || x == 'X')
  | _ => false

/-- Python `f"{s[:4]}-{s[4:]}"`: insert a hyphen after the fourth character. -/
def hyphenate8 (s : String) : String :=
  String.mk (s.data.take 4 ++ '-' :: s.data.drop 4)

/-- `XMLGenerator._fmt_issn` (xml_generator.py:42-49). -/
def fmtIssn (v : Cell) : String :=
  let s := stripHyphens (safeC v)
  if digits8 s then hyphenate8 s
  else if issnPattern (safeC v) then safeC v
  else ""

/-- A successfully parsed calendar date (a pandas `Timestamp`, restricted to
the fields the program formats). -/
structure Date where
  year : Nat
  month : Nat
  day : Nat
deriving DecidableEq

/-- `strftime('%m')` / `strftime('%d')`: two-digit zero-padded rendering
(faithful for the 0..99 values a timestamp can produce). -/
def pad2 (n : Nat) : String := String.mk [Nat.digitChar (n / 10 % 10), Nat.digitChar (n % 10)]

/-- `strftime('%Y')`: four-digit zero-padded rendering (faithful for the
1677..2262 year range of pandas timestamps). -/
def pad4 (n : Nat) : String :=
  String.mk [Nat.digitChar (n / 1000 % 10), Nat.digitChar (n / 100 % 10),
             Nat.digitChar (n / 10 % 10), Nat.digitChar (n % 10)]

/-- `XMLGenerator._ymd` (xml_generator.py:51-56): `(Y, M, D)` strings, or three
empty strings when `pd.to_datetime(..., errors='coerce')` yields `NaT`. -/
def ymd (parse : Cell → Option Date) (v : Cell) : String × String × String :=
  match parse v with
  | none => ("", "", "")
  | some d => (pad4 d.year, pad2 d.month, pad2 d.day)

/-- `pre.data` is a prefix of `s.data` (used to observe emitted lines). -/
def hasPre (pre s : String) : Bool := pre.data.isPrefixOf s.data

/-- `re.match(r'^(https?|ftp)://', v)` (xml_generator.py:60): the string starts
with `http://`, `https://` or `ftp://` (scheme compared case-sensitively). -/
def hasScheme (s : String) : Bool :=
  hasPre "http://" s || hasPre "https://" s || hasPre "ftp://" s

/-- `XMLGenerator._url_or_empty` (xml_generator.py:58-60). -/
def urlOrEmpty (v : Cell) : String :=
  let s := safeC v
  if !(s == "") && hasScheme s then s else ""

/-- One of the five author slots of an article row: columns
`author{i}_fname`, `author{i}_mname`, `author{i}_lname`, `author{i}_inst`. -/
structure Author where
  fname : Cell
  mname : Cell
  lname : Cell
  inst : Cell
deriving DecidableEq

/-- One row of the `{base}_articles.xlsx` dataset. -/
structure ArticleRec where
  title : Cell
  doi : Cell
  fulltext_url : Cell
  publication_date : Cell
  a1 : Author
  a2 : Author
  a3 : Author
  a4 : Author
  a5 : Author
deriving DecidableEq

/-- The five author slots in the order `range(1, 6)` visits them
(xml_generator.py:202). -/
def authorsOf (a : ArticleRec) : List Author := [a.a1, a.a2, a.a3, a.a4, a.a5]

/-- The first row of the `{base}_journal.xlsx` dataset (named columns). -/
structure JournalRec where
  journal_title : Cell
  abbrevTitle : Cell
  print_issn : Cell
  electronic_issn : Cell
  journal_doi : Cell
  journal_url : Cell
  volume : Cell
  issue : Cell
  issue_doi : Cell
  issue_url : Cell
  pub_date_print : Cell
  pub_date_online : Cell
deriving DecidableEq

/-- The `<journal_metadata>` lines of `XMLGenerator.create_journal_xml`
(xml_generator.py:120-136), one string per appended `parts` entry. -/
def journalMetadataParts (j : JournalRec) : List String :=
  let p_issn := fmtIssn j.print_issn
  let e_issn := fmtIssn j.electronic_issn
  let jtitle := safeC j.journal_title
  let jabbrev := safeC j.abbrevTitle
  let jdoi := safeC j.journal_doi
  let jurl := urlOrEmpty j.journal_url
  ["<journal_metadata>",
   "    <full_title>" ++ jtitle ++ "</full_title>"]
  ++ (if jabbrev ≠ "" then ["    <abbrev_title>" ++ jabbrev ++ "</abbrev_title>"] else [])
  ++ (if p_issn ≠ "" then ["    <issn media_type=\x27print\x27>" ++ p_issn ++ "</issn>"] else [])
  ++ (if e_issn ≠ "" then ["    <issn media_type=\x27electronic\x27>" ++ e_issn ++ "</issn>"] else [])
  ++ (if jdoi ≠ "" ∨ jurl ≠ "" then
        ["    <doi_data>"]
        ++ (if jdoi ≠ "" then ["        <doi>" ++ jdoi ++ "</doi>"] else [])
        ++ (if jurl ≠ "" then ["        <resource>" ++ jurl ++ "</resource>"] else [])
        ++ ["    </doi_data>"]
      else [])
  ++ ["</journal_metadata>"]

/-- The `<journal_issue>` lines of `XMLGenerator.create_journal_xml`
(xml_generator.py:138-164). -/
def journalIssueParts (parse : Cell → Option Date) (j : JournalRec) : List String :=
  let dp := ymd parse j.pub_date_print
  let dn := ymd parse j.pub_date_online
  let volume := safeC j.volume
  let issue := safeC j.issue
  let issue_doi := safeC j.issue_doi
  let issue_url := urlOrEmpty j.issue_url
  ["<journal_issue>"]
  ++ (if dp.1 ≠ "" ∧ dp.2.1 ≠ "" ∧ dp.2.2 ≠ "" then
        ["    <publication_date media_type=\x27print\x27>",
         "        <month>" ++ dp.2.1 ++ "</month>",
         "        <day>" ++ dp.2.2 ++ "</day>",
         "        <year>" ++ dp.1 ++ "</year>",
         "    </publication_date>"]
      else [])
  ++ (if dn.1 ≠ "" ∧ dn.2.1 ≠ "" ∧ dn.2.2 ≠ "" then
        ["    <publication_date media_type=\x27online\x27>",
         "        <month>" ++ dn.2.1 ++ "</month>",
         "        <day>" ++ dn.2.2 ++ "</day>",
         "        <year>" ++ dn.1 ++ "</year>",
         "    </publication_date>"]
      else [])
  ++ (if volume ≠ "" then
        ["    <journal_volume>",
         "        <volume>" ++ volume ++ "</volume>",
         "    </journal_volume>"]
      else [])
  ++ (if issue ≠ "" then ["    <issue>" ++ issue ++ "</issue>"] else [])
  ++ (if issue_doi ≠ "" ∨ issue_url ≠ "" then
        ["    <doi_data>"]
        ++ (if issue_doi ≠ "" then ["        <doi>" ++ issue_doi ++ "</doi>"] else [])
        ++ (if issue_url ≠ "" then ["        <resource>" ++ issue_url ++ "</resource>"] else [])
        ++ ["    </doi_data>"]
      else [])
  ++ ["</journal_issue>"]

/-- `XMLGenerator.create_journal_xml` result (`self.journal_xml`). -/
def createJournalXml (parse : Cell → Option Date) (j : JournalRec) : String :=
  String.intercalate "\n" (journalMetadataParts j ++ journalIssueParts parse j)

/-- The `<person_name>` lines appended for one author slot with the given
`sequence` attribute (xml_generator.py:208-218); only invoked by the loop when
the slot's given name is non-empty. -/
def personParts (sequence : String) (a : Author) : List String :=
  let fname := safeC a.fname
  let mname := safeC a.mname
  let lname := safeC a.lname
  let inst := safeC a.inst
  let given := String.mk (trimChars (String.intercalate " "
      ([fname, mname].filter (fun v => v ≠ ""))).data)
  ["            <person_name contributor_role=\x27author\x27 sequence=\x27" ++ sequence ++ "\x27>",
   "                <given_name>" ++ given ++ "</given_name>"]
  ++ (if lname ≠ "" then ["                <surname>" ++ lname ++ "</surname>"] else [])
  ++ (if inst ≠ "" then ["                <affiliation>" ++ inst ++ "</affiliation>"] else [])
  ++ ["            </person_name>"]

/-- The contributors loop of `create_article_xml` (xml_generator.py:201-218):
iterates over the author slots carrying the `first_written` flag. -/
def contribGo (first_written : Bool) : List Author → List String
  | [] => []
  | a :: rest =>
      if safeC a.fname = "" then contribGo first_written rest
      else
        personParts (if first_written then "additional" else "first") a
          ++ contribGo true rest

/-- The lines of one `<journal_article>` block (xml_generator.py:191-236),
built for an article whose resource URL already passed the check. -/
def articleParts (parse : Cell → Option Date) (a : ArticleRec) : List String :=
  let title := safeC a.title
  let doi := safeC a.doi
  let resource := urlOrEmpty a.fulltext_url
  let dt := ymd parse a.publication_date
  ["    <journal_article publication_type=\"full_text\">",
   "        <titles>",
   "            <title>" ++ title ++ "</title>",
   "        </titles>",
   "        <contributors>"]
  ++ contribGo false (authorsOf a)
  ++ ["        </contributors>"]
  ++ (if dt.1 ≠ "" ∧ dt.2.1 ≠ "" ∧ dt.2.2 ≠ "" then
        ["        <publication_date media_type=\x27online\x27>",
         "            <month>" ++ dt.2.1 ++ "</month>",
         "            <day>" ++ dt.2.2 ++ "</day>",
         "            <year>" ++ dt.1 ++ "</year>",
         "        </publication_date>"]
      else [])
  ++ ["        <doi_data>"]
  ++ (if doi ≠ "" then ["            <doi>" ++ doi ++ "</doi>"] else [])
  ++ ["            <resource>" ++ resource ++ "</resource>",
      "        </doi_data>",
      "    </journal_article>"]

/-- The message of the `ValueError` raised at xml_generator.py:187. -/
def errMsg (a : ArticleRec) : String :=
  "Missing resource URL for article: " ++
    (if safeC a.title = "" then "(untitled)" else safeC a.title)

/-- The loop of `create_article_xml` (xml_generator.py:179-238): processes the
rows in order, aborting with the `ValueError` at the first row whose resource
URL is missing or fails validation, otherwise collecting one joined block per
row. -/
def buildArticles (parse : Cell → Option Date) : List ArticleRec → Except String (List String)
  | [] => Except.ok []
  | a :: rest =>
      if urlOrEmpty a.fulltext_url = "" then Except.error (errMsg a)
      else
        match buildArticles parse rest with
        | Except.error e => Except.error e
        | Except.ok tail => Except.ok (String.intercalate "\n" (articleParts parse a) :: tail)

/-- `XMLGenerator.create_article_xml` result (`self.article_xml`), or the
raised error. -/
def createArticleXml (parse : Cell → Option Date) (articles : List ArticleRec) :
    Except String String :=
  match buildArticles parse articles with
  | Except.error e => Except.error e
  | Except.ok blocks => Except.ok (String.intercalate "\n" blocks)

/-- `find_journal_file`'s acceptance test (xml_generator.py:65):
Python `filename.endswith('_journal.xlsx')`, i.e. the characters of
`_journal.xlsx` are a suffix of the file name. -/
def isJournalFile (filename : String) : Bool :=
  "_journal.xlsx".data.isSuffixOf filename.data

/-- `XMLGenerator.extract_base_filename` (xml_generator.py:69-71):
Python `basename.split('_')[0]`, i.e. the characters of the discovered file's
base name up to (not including) the first underscore. -/
def extractBase (filename : String) : String :=
  String.mk (filename.data.takeWhile (fun c => c ≠ '_'))

/-- The batch id of `combine_xml` (xml_generator.py:252): Python
`self._safe(... .get('Journal_DOI')) or self.base_filename`. -/
def batchId (j : JournalRec) (base : String) : String :=
  if safeC j.journal_doi = "" then base else safeC j.journal_doi

/-- `XMLGenerator.combine_xml` (xml_generator.py:255-276): the fixed outer
envelope around the journal and article fragments. -/
def combineXml (bid timestamp jxml axml : String) : String :=
  "<?xml version=\"1.0\" encoding=\"UTF-8\"?>\n" ++
  "<doi_batch xmlns=\"http://www.crossref.org/schema/4.4.2\"\n" ++
  "           version=\"4.4.2\"\n" ++
  "           xmlns:xsi=\"http://www.w3.org/2001/XMLSchema-instance\"\n" ++
  "           xsi:schemaLocation=\"http://www.crossref.org/schema/4.4.2 http://www.crossref.org/schemas/crossref4.4.2.xsd\">\n" ++
  "    <head>\n" ++
  "        <doi_batch_id>" ++ bid ++ "</doi_batch_id>\n" ++
  "        <timestamp>" ++ timestamp ++ "</timestamp>\n" ++
  "        <depositor>\n" ++
  "            <depositor_name>MSSL</depositor_name>\n" ++
  "            <email_address>memanuel@olemiss.edu</email_address>\n" ++
  "        </depositor>\n" ++
  "        <registrant>University of Mississippi</registrant>\n" ++
  "    </head>\n" ++
  "    <body>\n" ++
  "        <journal>\n" ++
  jxml ++ "\n" ++ axml ++ "\n" ++
  "        </journal>\n" ++
  "    </body>\n" ++
  "</doi_batch>\n"

/-- `XMLGenerator.generate_xml` (xml_generator.py:294-306) after the data has
been loaded: builds the journal fragment, then the article fragment, then the
combined document.  `.ok doc` means the full document was assembled and then
written by `write_to_xml_file`; `.error e` means the exception `e` propagated
and nothing was written. -/
def generateXml (parse : Cell → Option Date) (j : JournalRec)
    (articles : List ArticleRec) (base timestamp : String) : Except String String :=
  let jxml := createJournalXml parse j
  match createArticleXml parse articles with
  | Except.error e => Except.error e
  | Except.ok axml => Except.ok (combineXml (batchId j base) timestamp jxml axml)

/-- Number of emitted lines starting with the marker `pre`. -/
def countPre (pre : String) (lines : List String) : Nat :=
  lines.countP (fun l => hasPre pre l)

/-- Spec-side reading of "exactly 8 digits" (C2). -/
def isDigits8 (s : String) : Prop :=
  s.data.length = 8 ∧ ∀ c ∈ s.data, c.isDigit = true

instance (s : String) : Decidable (isDigits8 s) := by
  unfold isDigits8; infer_instance

/-- Spec-side reading of "four digits, hyphen, three digits, then a digit or
`X`" (C2, C8). -/
def issnShape (s : String) : Prop :=
  ∃ a b c d e f g x : Char,
    s.data = [a, b, c, d, '-', e, f, g, x] ∧
    (∀ y ∈ [a, b, c, d, e, f, g], y.isDigit = true) ∧
    (x.isDigit = true ∨ x = 'X')

/-- Spec-side reading of "starts with `http://`, `https://` or `ftp://`" (C7). -/
def schemeShape (s : String) : Prop :=
  "http://".data <+: s.data ∨ "https://".data <+: s.data ∨ "ftp://".data <+: s.data

instance (s : String) : Decidable (schemeShape s) := by
  unfold schemeShape
  infer_instance

/-- Spec-side description of the contributors section (C3): the slots with a
non-empty given name, in slot order; the first marked `first`, the rest
`additional`. -/
def specContrib (authors : List Author) : List String :=
  match authors.filter (fun a => !(safeC a.fname == "")) with
  | [] => []
  | f :: rest => personParts "first" f ++ rest.flatMap (personParts "additional")

/-! ### General helper lemmas: characters, trimming, prefixes, counting -/

theorem digit_not_ws (c : Char) (h : c.isDigit = true) : c.isWhitespace = false := by
  by_contra hw
  rw [Bool.not_eq_false] at hw
  simp only [Char.isWhitespace, Bool.or_eq_true, decide_eq_true_eq] at hw
  rcases hw with ((h1 | h1) | h1) | h1 <;> subst h1 <;> simp at h

theorem digit_ne_hyphen (c : Char) (h : c.isDigit = true) : c ≠ '-' := by
  intro h1
  subst h1
  simp at h

theorem str_eq_empty_iff (s : String) : s = "" ↔ s.data = [] := String.ext_iff

theorem headq_append (l₁ l₂ : List Char) (h : l₁ ≠ []) : (l₁ ++ l₂).head? = l₁.head? := by
  cases l₁ <;> simp_all

theorem dropWhile_eq_self (p : Char → Bool) (l : List Char)
    (h : ∀ c, l.head? = some c → p c = false) : l.dropWhile p = l := by
  cases l with
  | nil => rfl
  | cons a t =>
      rw [List.dropWhile_cons]
      simp [h a rfl]

theorem head?_dropWhile_false (p : Char → Bool) (l : List Char) :
    ∀ c, (l.dropWhile p).head? = some c → p c = false := by
  induction l with
  | nil => intro c hc; simp at hc
  | cons a t ih =>
      intro c hc
      rw [List.dropWhile_cons] at hc
      by_cases hp : p a
      · simp [hp] at hc
        exact ih c hc
      · simp [hp] at hc
        subst hc
        simpa using hp

theorem trimChars_head (l : List Char) :
    ∀ c, (trimChars l).head? = some c → c.isWhitespace = false := by
  intro c hc
  unfold trimChars at hc
  obtain ⟨t, ht⟩ :=
    (show (l.dropWhile Char.isWhitespace).reverse.dropWhile Char.isWhitespace
        <:+ (l.dropWhile Char.isWhitespace).reverse from List.dropWhile_suffix _)
  rw [List.head?_reverse] at hc
  have hr : ((l.dropWhile Char.isWhitespace).reverse.dropWhile Char.isWhitespace) ≠ [] := by
    intro h0
    rw [h0] at hc
    simp at hc
  have h2 := List.getLast?_append_of_ne_nil t hr
  rw [ht] at h2
  rw [hc, List.getLast?_reverse] at h2
  exact head?_dropWhile_false Char.isWhitespace l c h2

theorem trimChars_getLast (l : List Char) :
    ∀ c, (trimChars l).getLast? = some c → c.isWhitespace = false := by
  intro c hc
  unfold trimChars at hc
  rw [List.getLast?_reverse] at hc
  exact head?_dropWhile_false _ _ c hc

theorem trimChars_eq_self (l : List Char)
    (h1 : ∀ c, l.head? = some c → c.isWhitespace = false)
    (h2 : ∀ c, l.getLast? = some c → c.isWhitespace = false) : trimChars l = l := by
  unfold trimChars
  rw [dropWhile_eq_self _ l h1]
  rw [dropWhile_eq_self _ l.reverse (fun c hc => h2 c (by rwa [List.head?_reverse] at hc))]
  exact List.reverse_reverse l

theorem safeC_head (v : Cell) :
    ∀ c, (safeC v).data.head? = some c → c.isWhitespace = false := by
  cases v with
  | missing => intro c hc; simp [safeC] at hc
  | str s => intro c hc; exact trimChars_head s.data c hc

theorem safeC_getLast (v : Cell) :
    ∀ c, (safeC v).data.getLast? = some c → c.isWhitespace = false := by
  cases v with
  | missing => intro c hc; simp [safeC] at hc
  | str s => intro c hc; exact trimChars_getLast s.data c hc

theorem isPre_self_app (l r : List Char) : l.isPrefixOf (l ++ r) = true := by
  induction l with
  | nil => simp [List.isPrefixOf]
  | cons a t ih => simp [List.isPrefixOf, ih]

theorem isPre_app_false (p q r : List Char) (h1 : p.isPrefixOf q = false)
    (h2 : q.isPrefixOf p = false) : p.isPrefixOf (q ++ r) = false := by
  induction p generalizing q with
  | nil => simp [List.isPrefixOf] at h1
  | cons a t ih =>
      cases q with
      | nil => simp [List.isPrefixOf] at h2
      | cons b s =>
          simp only [List.cons_append, List.isPrefixOf] at h1 ⊢
          simp only [List.isPrefixOf] at h2
          by_cases hab : a = b
          · subst hab
            simp only [beq_self_eq_true, Bool.true_and] at h1 h2 ⊢
            exact ih s h1 h2
          · have hb : (a == b) = false := beq_eq_false_iff_ne.mpr hab
            simp [hb]

theorem isPre_trans_app (p q r : List Char) (h : p.isPrefixOf q = true) :
    p.isPrefixOf (q ++ r) = true := by
  induction p generalizing q with
  | nil => simp [List.isPrefixOf]
  | cons a t ih =>
      cases q with
      | nil => simp [List.isPrefixOf] at h
      | cons b s =>
          simp only [List.cons_append, List.isPrefixOf, Bool.and_eq_true] at h ⊢
          exact ⟨h.1, ih s h.2⟩

theorem isPre_iff (l₁ l₂ : List Char) : l₁.isPrefixOf l₂ = true ↔ l₁ <+: l₂ := by
  induction l₁ generalizing l₂ with
  | nil => simp [List.isPrefixOf]
  | cons a t ih =>
      cases l₂ with
      | nil => simp [List.isPrefixOf]
      | cons b s =>
          simp [List.isPrefixOf, Bool.and_eq_true, beq_iff_eq, ih, List.cons_prefix_cons]

theorem hasPre_app (p r : String) : hasPre p (p ++ r) = true := by
  unfold hasPre
  rw [String.data_append]
  exact isPre_self_app _ _

theorem hasPre_irrel (p q r : String) (h1 : p.data.isPrefixOf q.data = false)
    (h2 : q.data.isPrefixOf p.data = false) : hasPre p (q ++ r) = false := by
  unfold hasPre
  rw [String.data_append]
  exact isPre_app_false _ _ _ h1 h2

theorem countPre_nil (p : String) : countPre p [] = 0 := rfl

theorem countPre_cons (p s : String) (l : List String) :
    countPre p (s :: l) = countPre p l + (if hasPre p s then 1 else 0) := by
  simp [countPre, List.countP_cons]

theorem countPre_append (p : String) (l₁ l₂ : List String) :
    countPre p (l₁ ++ l₂) = countPre p l₁ + countPre p l₂ := by
  simp [countPre, List.countP_append]

theorem countPre_ite (p : String) (c : Prop) [Decidable c] (l₁ l₂ : List String) :
    countPre p (if c then l₁ else l₂) = if c then countPre p l₁ else countPre p l₂ :=
  apply_ite _ _ _ _

/-! ### ISSN normalization lemmas -/

theorem digits8_iff (s : String) : digits8 s = true ↔ isDigits8 s := by
  unfold digits8 isDigits8
  rw [Bool.and_eq_true, beq_iff_eq, List.all_eq_true]

theorem digits8_false_iff (s : String) : digits8 s = false ↔ ¬ isDigits8 s := by
  rw [← digits8_iff s]
  exact Bool.eq_false_iff

theorem issnPattern_iff (s : String) : issnPattern s = true ↔ issnShape s := by
  constructor
  · intro hp
    unfold issnPattern at hp
    split at hp
    next a b c d hchar e f g x heq =>
      simp only [Bool.and_eq_true, Bool.or_eq_true, beq_iff_eq] at hp
      obtain ⟨⟨⟨⟨⟨⟨⟨⟨ha, hb⟩, hc⟩, hd⟩, hh2⟩, he⟩, hf⟩, hg⟩, hx⟩ := hp
      refine ⟨a, b, c, d, e, f, g, x, ?_, ?_, hx⟩
      · rw [heq, hh2]
      · intro y hy
        simp only [List.mem_cons, List.not_mem_nil, or_false] at hy
        rcases hy with rfl | rfl | rfl | rfl | rfl | rfl | rfl <;> assumption
    next => simp at hp
  · rintro ⟨a, b, c, d, e, f, g, x, heq, hdig, hx⟩
    unfold issnPattern
    rw [heq]
    show (a.isDigit && b.isDigit && c.isDigit && d.isDigit && ('-' == '-') &&
          e.isDigit && f.isDigit && g.isDigit && (x.isDigit || x == 'X')) = true
    have ha := hdig a (by simp)
    have hb := hdig b (by simp)
    have hc := hdig c (by simp)
    have hd := hdig d (by simp)
    have he := hdig e (by simp)
    have hf := hdig f (by simp)
    have hg := hdig g (by simp)
    rcases hx with hx | hx <;> simp [ha, hb, hc, hd, he, hf, hg, hx]

theorem issnPattern_false_iff (s : String) : issnPattern s = false ↔ ¬ issnShape s := by
  rw [← issnPattern_iff s]
  exact Bool.eq_false_iff

theorem fmtIssn_digits (v : Cell) (h : digits8 (stripHyphens (safeC v)) = true) :
    fmtIssn v = hyphenate8 (stripHyphens (safeC v)) := by
  unfold fmtIssn
  simp [h]

theorem fmtIssn_pattern (v : Cell) (h : digits8 (stripHyphens (safeC v)) = false)
    (h2 : issnPattern (safeC v) = true) : fmtIssn v = safeC v := by
  unfold fmtIssn
  simp [h, h2]

theorem fmtIssn_none (v : Cell) (h : digits8 (stripHyphens (safeC v)) = false)
    (h2 : issnPattern (safeC v) = false) : fmtIssn v = "" := by
  unfold fmtIssn
  simp [h, h2]

theorem issnShape_trim (s : String) (hs : issnShape s) : safeC (Cell.str s) = s := by
  obtain ⟨a, b, c, d, e, f, g, x, heq, hdig, hx⟩ := hs
  have h1 : ∀ c', s.data.head? = some c' → c'.isWhitespace = false := by
    intro c' hc'
    rw [heq] at hc'
    simp only [List.head?_cons, Option.some.injEq] at hc'
    subst hc'
    exact digit_not_ws a (hdig a (by simp))
  have h2 : ∀ c', s.data.getLast? = some c' → c'.isWhitespace = false := by
    intro c' hc'
    rw [heq] at hc'
    simp only [List.getLast?_cons_cons, List.getLast?_singleton, Option.some.injEq] at hc'
    subst hc'
    rcases hx with h | h
    · exact digit_not_ws _ h
    · rw [h]
      decide
  show String.mk (trimChars s.data) = s
  rw [trimChars_eq_self s.data h1 h2]

theorem issnShape_fix (s : String) (hs : issnShape s) : fmtIssn (Cell.str s) = s := by
  have hts := issnShape_trim s hs
  obtain ⟨a, b, c, d, e, f, g, x, heq, hdig, hx⟩ := hs
  have hxh : x ≠ '-' := by
    rcases hx with h | h
    · exact digit_ne_hyphen x h
    · rw [h]; decide
  have hstrip : (stripHyphens (safeC (Cell.str s))).data = [a, b, c, d, e, f, g, x] := by
    rw [hts]
    show s.data.filter (fun c => c ≠ '-') = _
    rw [heq]
    have ha := digit_ne_hyphen a (hdig a (by simp))
    have hb := digit_ne_hyphen b (hdig b (by simp))
    have hc := digit_ne_hyphen c (hdig c (by simp))
    have hd := digit_ne_hyphen d (hdig d (by simp))
    have he := digit_ne_hyphen e (hdig e (by simp))
    have hf := digit_ne_hyphen f (hdig f (by simp))
    have hg := digit_ne_hyphen g (hdig g (by simp))
    simp [List.filter_cons, ha, hb, hc, hd, he, hf, hg, hxh]
  by_cases hxd : x.isDigit = true
  · have hd8 : digits8 (stripHyphens (safeC (Cell.str s))) = true := by
      unfold digits8
      rw [hstrip]
      have ha := hdig a (by simp)
      have hb := hdig b (by simp)
      have hc := hdig c (by simp)
      have hd := hdig d (by simp)
      have he := hdig e (by simp)
      have hf := hdig f (by simp)
      have hg := hdig g (by simp)
      simp [ha, hb, hc, hd, he, hf, hg, hxd]
    rw [fmtIssn_digits _ hd8]
    rw [String.ext_iff]
    show (stripHyphens (safeC (Cell.str s))).data.take 4 ++
        '-' :: (stripHyphens (safeC (Cell.str s))).data.drop 4 = s.data
    rw [hstrip, heq]
    rfl
  · have hx' : x = 'X' := by
      rcases hx with h | h
      · exact absurd h hxd
      · exact h
    have hd8 : digits8 (stripHyphens (safeC (Cell.str s))) = false := by
      unfold digits8
      rw [hstrip, hx']
      simp
    have hpat : issnPattern (safeC (Cell.str s)) = true := by
      rw [hts]
      exact (issnPattern_iff s).mpr ⟨a, b, c, d, e, f, g, x, heq, hdig, hx⟩
    rw [fmtIssn_pattern _ hd8 hpat, hts]

theorem exists_eight (l : List Char) (h : l.length = 8) :
    ∃ a b c d e f g x, l = [a, b, c, d, e, f, g, x] := by
  obtain ⟨a, l, rfl⟩ := List.exists_of_length_succ l h
  simp only [List.length_cons, Nat.succ.injEq] at h
  obtain ⟨b, l, rfl⟩ := List.exists_of_length_succ l h
  simp only [List.length_cons, Nat.succ.injEq] at h
  obtain ⟨c, l, rfl⟩ := List.exists_of_length_succ l h
  simp only [List.length_cons, Nat.succ.injEq] at h
  obtain ⟨d, l, rfl⟩ := List.exists_of_length_succ l h
  simp only [List.length_cons, Nat.succ.injEq] at h
  obtain ⟨e, l, rfl⟩ := List.exists_of_length_succ l h
  simp only [List.length_cons, Nat.succ.injEq] at h
  obtain ⟨f, l, rfl⟩ := List.exists_of_length_succ l h
  simp only [List.length_cons, Nat.succ.injEq] at h
  obtain ⟨g, l, rfl⟩ := List.exists_of_length_succ l h
  simp only [List.length_cons, Nat.succ.injEq] at h
  obtain ⟨x, l, rfl⟩ := List.exists_of_length_succ l h
  simp only [List.length_cons, Nat.succ.injEq, List.length_eq_zero] at h
  subst h
  exact ⟨a, b, c, d, e, f, g, x, rfl⟩

theorem fmtIssn_output_shape (v : Cell) : fmtIssn v = "" ∨ issnShape (fmtIssn v) := by
  by_cases h8 : digits8 (stripHyphens (safeC v)) = true
  · right
    rw [fmtIssn_digits v h8]
    obtain ⟨hl, hd⟩ := (digits8_iff _).mp h8
    obtain ⟨a, b, c, d, e, f, g, x, heq⟩ := exists_eight _ hl
    refine ⟨a, b, c, d, e, f, g, x, ?_, ?_, ?_⟩
    · show (stripHyphens (safeC v)).data.take 4 ++
          '-' :: (stripHyphens (safeC v)).data.drop 4 = _
      rw [heq]
      rfl
    · intro y hy
      apply hd
      rw [heq]
      simp only [List.mem_cons, List.not_mem_nil, or_false] at hy ⊢
      tauto
    · left
      apply hd
      rw [heq]
      simp
  · rw [Bool.not_eq_true] at h8
    by_cases hp : issnPattern (safeC v) = true
    · right
      rw [fmtIssn_pattern v h8 hp]
      exact (issnPattern_iff _).mp hp
    · left
      rw [Bool.not_eq_true] at hp
      exact fmtIssn_none v h8 hp

theorem fmtIssn_idem_str (v : Cell) : fmtIssn (Cell.str (fmtIssn v)) = fmtIssn v := by
  rcases fmtIssn_output_shape v with h | h
  · rw [h]
    decide
  · exact issnShape_fix _ h

/-- C2: for every input value, ISSN normalization first strips all hyphens; if
the stripped value is exactly 8 digits the result is the stripped value with a
hyphen inserted after the 4th digit; otherwise, if the trimmed original
matches four digits, hyphen, three digits, then a digit or `X`, the trimmed
original is returned unchanged; otherwise the result is the empty string.
(`fmtIssn` is a total function, so no exception is ever raised.) -/
theorem c2_issn_normalization (v : Cell) :
    (isDigits8 (stripHyphens (safeC v)) →
      fmtIssn v = hyphenate8 (stripHyphens (safeC v)))
  ∧ (¬ isDigits8 (stripHyphens (safeC v)) → issnShape (safeC v) →
      fmtIssn v = safeC v)
  ∧ (¬ isDigits8 (stripHyphens (safeC v)) → ¬ issnShape (safeC v) →
      fmtIssn v = "") := by
  refine ⟨fun h => fmtIssn_digits v ((digits8_iff _).mpr h),
    fun h hsh => ?_, fun h hsh => ?_⟩
  · exact fmtIssn_pattern v ((digits8_false_iff _).mpr h) ((issnPattern_iff _).mpr hsh)
  · exact fmtIssn_none v ((digits8_false_iff _).mpr h) ((issnPattern_false_iff _).mpr hsh)

/-- Witness for C2 at the concrete input `"12345678"`. -/
theorem c2_issn_normalization_w :
    isDigits8 (stripHyphens (safeC (Cell.str "12345678"))) ∧
    fmtIssn (Cell.str "12345678") =
      hyphenate8 (stripHyphens (safeC (Cell.str "12345678"))) :=
  ⟨by decide, (c2_issn_normalization (Cell.str "12345678")).1 (by decide)⟩

/-- C8: ISSN normalization is idempotent on its valid outputs: every string of
the shape four digits, hyphen, three digits, digit-or-`X` is returned
unchanged, and applying normalization twice to any input equals applying it
once. -/
theorem c8_issn_idempotent :
    (∀ s : String, issnShape s → fmtIssn (Cell.str s) = s)
  ∧ (∀ v : Cell, fmtIssn (Cell.str (fmtIssn v)) = fmtIssn v) :=
  ⟨fun s hs => issnShape_fix s hs, fmtIssn_idem_str⟩

/-- Witness for C8 at the concrete input `"1234-567X"`. -/
theorem c8_issn_idempotent_w :
    issnShape "1234-567X" ∧ fmtIssn (Cell.str "1234-567X") = "1234-567X" := by
  have hs : issnShape "1234-567X" :=
    ⟨'1', '2', '3', '4', '5', '6', '7', 'X', rfl, by decide, by decide⟩
  exact ⟨hs, c8_issn_idempotent.1 "1234-567X" hs⟩

/-! ### URL normalization lemmas -/

theorem hasScheme_iff (s : String) : hasScheme s = true ↔ schemeShape s := by
  unfold hasScheme schemeShape hasPre
  simp [Bool.or_eq_true, isPre_iff]
  tauto

theorem urlOrEmpty_eq (v : Cell) :
    urlOrEmpty v = if schemeShape (safeC v) then safeC v else "" := by
  unfold urlOrEmpty
  by_cases h : schemeShape (safeC v)
  · have hb : hasScheme (safeC v) = true := (hasScheme_iff _).mpr h
    have hne : (safeC v == "") = false := by
      rw [beq_eq_false_iff_ne]
      intro h0
      rw [h0] at h
      exact absurd h (by decide)
    simp [hb, hne, h]
  · have hb : hasScheme (safeC v) = false :=
      Bool.eq_false_iff.mpr (fun ht => h ((hasScheme_iff _).mp ht))
    simp [hb, h]

/-! ### Batch id lemmas -/

theorem extractBase_ne (fname : String) (h1 : fname.data.head? ≠ some '_')
    (h2 : fname ≠ "") : extractBase fname ≠ "" := by
  unfold extractBase
  rcases hd : fname.data with _ | ⟨c, t⟩
  · exact absurd ((str_eq_empty_iff fname).mpr hd) h2
  · have hc : c ≠ '_' := by
      intro h0
      rw [hd, h0] at h1
      simp at h1
    rw [List.takeWhile_cons]
    simp only [hc, decide_not, decide_eq_true_eq]
    intro h0
    have := congrArg String.data h0
    simp [hc] at this

/-! ### Contributors loop lemmas -/

theorem contribGo_true_eq (l : List Author) :
    contribGo true l =
      (l.filter (fun a => !(safeC a.fname == ""))).flatMap (personParts "additional") := by
  induction l with
  | nil => rfl
  | cons a t ih =>
      unfold contribGo
      by_cases hf : safeC a.fname = ""
      · simp [hf, ih]
      · simp [hf, List.filter_cons, ih]

theorem contribGo_false_spec (l : List Author) : contribGo false l = specContrib l := by
  induction l with
  | nil => rfl
  | cons a t ih =>
      unfold contribGo
      by_cases hf : safeC a.fname = ""
      · rw [if_pos hf, ih]
        unfold specContrib
        simp [List.filter_cons, hf]
      · rw [if_neg hf, contribGo_true_eq]
        unfold specContrib
        simp [List.filter_cons, hf]

/-! ### Date normalization lemmas -/

theorem pad2_ne (n : Nat) : pad2 n ≠ "" := by
  intro h
  have := congrArg String.data h
  simp [pad2] at this

theorem pad4_ne (n : Nat) : pad4 n ≠ "" := by
  intro h
  have := congrArg String.data h
  simp [pad4] at this

theorem ymd_none (parse : Cell → Option Date) (v : Cell) (h : parse v = none) :
    ymd parse v = ("", "", "") := by
  simp [ymd, h]

theorem ymd_cond (parse : Cell → Option Date) (v : Cell) :
    ((ymd parse v).1 ≠ "" ∧ (ymd parse v).2.1 ≠ "" ∧ (ymd parse v).2.2 ≠ "") ↔
      (parse v).isSome = true := by
  cases h : parse v <;> simp [ymd, h, pad2_ne, pad4_ne]

/-! ### Joining and trimming of already-normalized strings -/

theorem intercalate_one (sep x : String) : String.intercalate sep [x] = x := rfl

theorem intercalate_two (sep x y : String) :
    String.intercalate sep [x, y] = x ++ sep ++ y := rfl

theorem trim_safeC (v : Cell) : String.mk (trimChars (safeC v).data) = safeC v := by
  rw [trimChars_eq_self _ (safeC_head v) (safeC_getLast v)]

theorem trim_join (x y : String) (hx : x ≠ "") (hy : y ≠ "")
    (hx1 : ∀ c, x.data.head? = some c → c.isWhitespace = false)
    (hy2 : ∀ c, y.data.getLast? = some c → c.isWhitespace = false) :
    String.mk (trimChars (x ++ " " ++ y).data) = x ++ " " ++ y := by
  have hxd : x.data ≠ [] := fun h0 => hx ((str_eq_empty_iff x).mpr h0)
  have hyd : y.data ≠ [] := fun h0 => hy ((str_eq_empty_iff y).mpr h0)
  have hdata : (x ++ " " ++ y).data = (x.data ++ [' ']) ++ y.data := by
    rw [String.data_append, String.data_append]
  rw [trimChars_eq_self]
  · intro c hc
    rw [hdata, headq_append _ _ (by simp [hxd]), headq_append _ _ hxd] at hc
    exact hx1 c hc
  · intro c hc
    rw [hdata, List.getLast?_append_of_ne_nil _ hyd] at hc
    exact hy2 c hc

theorem hasPre_trans (p q r : String) (h : p.data.isPrefixOf q.data = true) :
    hasPre p (q ++ r) = true := by
  unfold hasPre
  rw [String.data_append]
  exact isPre_trans_app _ _ _ h

/-- C3: among the five author slots, exactly those with a non-empty given
name produce a `person_name` entry, in slot order; the first such entry is
marked `sequence='first'` and all later ones `sequence='additional'`; slots
with an empty given name contribute nothing and do not affect the marking of
later slots. -/
theorem c3_author_sequence (r : ArticleRec) :
    contribGo false (authorsOf r) = specContrib (authorsOf r) :=
  contribGo_false_spec (authorsOf r)

/-- C5 counterexample: the file named exactly `_journal.xlsx` is accepted by
discovery, its filename-derived base identifier is empty, and with a missing
`Journal_DOI` the doi_batch_id is the empty string — refuting "it is never
the empty string". -/
theorem c5_batch_id_cex :
    isJournalFile "_journal.xlsx" = true ∧
    extractBase "_journal.xlsx" = "" ∧
    batchId
      (JournalRec.mk Cell.missing Cell.missing Cell.missing Cell.missing
        Cell.missing Cell.missing Cell.missing Cell.missing Cell.missing
        Cell.missing Cell.missing Cell.missing)
      (extractBase "_journal.xlsx") = "" := by
  refine ⟨by decide, by decide, by decide⟩

/-- C5 (amended): the doi_batch_id equals the journal's DOI when that field is
non-empty and otherwise equals the filename-derived base identifier; it is
non-empty whenever that fallback is non-empty, which holds for every
discovered filename that is non-empty and does not start with an underscore
(the original "never empty" fails exactly when the DOI is empty and the
journal file name starts with `_`). -/
theorem c5_batch_id_amended (j : JournalRec) (base fname : String) :
    (safeC j.journal_doi ≠ "" → batchId j base = safeC j.journal_doi)
  ∧ (safeC j.journal_doi = "" → batchId j base = base)
  ∧ (base ≠ "" → batchId j base ≠ "")
  ∧ (fname.data.head? ≠ some '_' → fname ≠ "" →
      batchId j (extractBase fname) ≠ "") := by
  refine ⟨fun h => by simp [batchId, h], fun h => by simp [batchId, h], fun hb => ?_,
    fun h1 h2 => ?_⟩
  · unfold batchId
    by_cases h : safeC j.journal_doi = ""
    · rw [if_pos h]; exact hb
    · rw [if_neg h]; exact h
  · unfold batchId
    by_cases h : safeC j.journal_doi = ""
    · rw [if_pos h]; exact extractBase_ne fname h1 h2
    · rw [if_neg h]; exact h

/-- Witness for C5 (amended) at a concrete journal record and filename. -/
theorem c5_batch_id_amended_w :
    safeC (JournalRec.mk Cell.missing Cell.missing Cell.missing Cell.missing
        (Cell.str "10.1000/j.1") Cell.missing Cell.missing Cell.missing
        Cell.missing Cell.missing Cell.missing Cell.missing).journal_doi ≠ "" ∧
    batchId
      (JournalRec.mk Cell.missing Cell.missing Cell.missing Cell.missing
        (Cell.str "10.1000/j.1") Cell.missing Cell.missing Cell.missing
        Cell.missing Cell.missing Cell.missing Cell.missing) "base" = "10.1000/j.1" := by
  refine ⟨by decide, ?_⟩
  have h := (c5_batch_id_amended
    (JournalRec.mk Cell.missing Cell.missing Cell.missing Cell.missing
      (Cell.str "10.1000/j.1") Cell.missing Cell.missing Cell.missing
      Cell.missing Cell.missing Cell.missing Cell.missing) "base" "b_journal.xlsx").1 (by decide)
  rw [h]
  decide

/-! ### Line counting over the journal metadata fragment -/

theorem cntMeta_full (j : JournalRec) :
    countPre "    <full_title>" (journalMetadataParts j) = 1 := by
  have hfull : ∀ r : String,
      hasPre "    <full_title>" ("    <full_title>" ++ r) = true :=
    fun r => hasPre_app _ r
  have habb : ∀ r : String,
      hasPre "    <full_title>" ("    <abbrev_title>" ++ r) = false :=
    fun r => hasPre_irrel _ _ r (by decide) (by decide)
  have hip : ∀ r : String,
      hasPre "    <full_title>" ("    <issn media_type=\x27print\x27>" ++ r) = false :=
    fun r => hasPre_irrel _ _ r (by decide) (by decide)
  have hie : ∀ r : String,
      hasPre "    <full_title>" ("    <issn media_type=\x27electronic\x27>" ++ r) = false :=
    fun r => hasPre_irrel _ _ r (by decide) (by decide)
  have hdoi : ∀ r : String,
      hasPre "    <full_title>" ("        <doi>" ++ r) = false :=
    fun r => hasPre_irrel _ _ r (by decide) (by decide)
  have hres : ∀ r : String,
      hasPre "    <full_title>" ("        <resource>" ++ r) = false :=
    fun r => hasPre_irrel _ _ r (by decide) (by decide)
  have h0 : hasPre "    <full_title>" "<journal_metadata>" = false := by decide
  have hdo : hasPre "    <full_title>" "    <doi_data>" = false := by decide
  have hdc : hasPre "    <full_title>" "    </doi_data>" = false := by decide
  have hmc : hasPre "    <full_title>" "</journal_metadata>" = false := by decide
  simp [journalMetadataParts, countPre_append, countPre_cons, countPre_nil, countPre_ite,
    String.append_assoc, hfull, habb, hip, hie, hdoi, hres, h0, hdo, hdc, hmc]

theorem cntMeta_abbrev (j : JournalRec) :
    countPre "    <abbrev_title>" (journalMetadataParts j) =
      if safeC j.abbrevTitle ≠ "" then 1 else 0 := by
  have hfull : ∀ r : String,
      hasPre "    <abbrev_title>" ("    <full_title>" ++ r) = false :=
    fun r => hasPre_irrel _ _ r (by decide) (by decide)
  have habb : ∀ r : String,
      hasPre "    <abbrev_title>" ("    <abbrev_title>" ++ r) = true :=
    fun r => hasPre_app _ r
  have hip : ∀ r : String,
      hasPre "    <abbrev_title>" ("    <issn media_type=\x27print\x27>" ++ r) = false :=
    fun r => hasPre_irrel _ _ r (by decide) (by decide)
  have hie : ∀ r : String,
      hasPre "    <abbrev_title>" ("    <issn media_type=\x27electronic\x27>" ++ r) = false :=
    fun r => hasPre_irrel _ _ r (by decide) (by decide)
  have hdoi : ∀ r : String,
      hasPre "    <abbrev_title>" ("        <doi>" ++ r) = false :=
    fun r => hasPre_irrel _ _ r (by decide) (by decide)
  have hres : ∀ r : String,
      hasPre "    <abbrev_title>" ("        <resource>" ++ r) = false :=
    fun r => hasPre_irrel _ _ r (by decide) (by decide)
  have h0 : hasPre "    <abbrev_title>" "<journal_metadata>" = false := by decide
  have hdo : hasPre "    <abbrev_title>" "    <doi_data>" = false := by decide
  have hdc : hasPre "    <abbrev_title>" "    </doi_data>" = false := by decide
  have hmc : hasPre "    <abbrev_title>" "</journal_metadata>" = false := by decide
  simp [journalMetadataParts, countPre_append, countPre_cons, countPre_nil, countPre_ite,
    String.append_assoc, hfull, habb, hip, hie, hdoi, hres, h0, hdo, hdc, hmc]

theorem cntMeta_issnp (j : JournalRec) :
    countPre "    <issn media_type=\x27print\x27>" (journalMetadataParts j) =
      if fmtIssn j.print_issn ≠ "" then 1 else 0 := by
  have hfull : ∀ r : String,
      hasPre "    <issn media_type=\x27print\x27>" ("    <full_title>" ++ r) = false :=
    fun r => hasPre_irrel _ _ r (by decide) (by decide)
  have habb : ∀ r : String,
      hasPre "    <issn media_type=\x27print\x27>" ("    <abbrev_title>" ++ r) = false :=
    fun r => hasPre_irrel _ _ r (by decide) (by decide)
  have hip : ∀ r : String,
      hasPre "    <issn media_type=\x27print\x27>"
        ("    <issn media_type=\x27print\x27>" ++ r) = true :=
    fun r => hasPre_app _ r
  have hie : ∀ r : String,
      hasPre "    <issn media_type=\x27print\x27>"
        ("    <issn media_type=\x27electronic\x27>" ++ r) = false :=
    fun r => hasPre_irrel _ _ r (by decide) (by decide)
  have hdoi : ∀ r : String,
      hasPre "    <issn media_type=\x27print\x27>" ("        <doi>" ++ r) = false :=
    fun r => hasPre_irrel _ _ r (by decide) (by decide)
  have hres : ∀ r : String,
      hasPre "    <issn media_type=\x27print\x27>" ("        <resource>" ++ r) = false :=
    fun r => hasPre_irrel _ _ r (by decide) (by decide)
  have h0 : hasPre "    <issn media_type=\x27print\x27>" "<journal_metadata>" = false := by decide
  have hdo : hasPre "    <issn media_type=\x27print\x27>" "    <doi_data>" = false := by decide
  have hdc : hasPre "    <issn media_type=\x27print\x27>" "    </doi_data>" = false := by decide
  have hmc : hasPre "    <issn media_type=\x27print\x27>" "</journal_metadata>" = false := by decide
  simp [journalMetadataParts, countPre_append, countPre_cons, countPre_nil, countPre_ite,
    String.append_assoc, hfull, habb, hip, hie, hdoi, hres, h0, hdo, hdc, hmc]

theorem cntMeta_issne (j : JournalRec) :
    countPre "    <issn media_type=\x27electronic\x27>" (journalMetadataParts j) =
      if fmtIssn j.electronic_issn ≠ "" then 1 else 0 := by
  have hfull : ∀ r : String,
      hasPre "    <issn media_type=\x27electronic\x27>" ("    <full_title>" ++ r) = false :=
    fun r => hasPre_irrel _ _ r (by decide) (by decide)
  have habb : ∀ r : String,
      hasPre "    <issn media_type=\x27electronic\x27>" ("    <abbrev_title>" ++ r) = false :=
    fun r => hasPre_irrel _ _ r (by decide) (by decide)
  have hip : ∀ r : String,
      hasPre "    <issn media_type=\x27electronic\x27>"
        ("    <issn media_type=\x27print\x27>" ++ r) = false :=
    fun r => hasPre_irrel _ _ r (by decide) (by decide)
  have hie : ∀ r : String,
      hasPre "    <issn media_type=\x27electronic\x27>"
        ("    <issn media_type=\x27electronic\x27>" ++ r) = true :=
    fun r => hasPre_app _ r
  have hdoi : ∀ r : String,
      hasPre "    <issn media_type=\x27electronic\x27>" ("        <doi>" ++ r) = false :=
    fun r => hasPre_irrel _ _ r (by decide) (by decide)
  have hres : ∀ r : String,
      hasPre "    <issn media_type=\x27electronic\x27>" ("        <resource>" ++ r) = false :=
    fun r => hasPre_irrel _ _ r (by decide) (by decide)
  have h0 : hasPre "    <issn media_type=\x27electronic\x27>" "<journal_metadata>" = false := by
    decide
  have hdo : hasPre "    <issn media_type=\x27electronic\x27>" "    <doi_data>" = false := by
    decide
  have hdc : hasPre "    <issn media_type=\x27electronic\x27>" "    </doi_data>" = false := by
    decide
  have hmc : hasPre "    <issn media_type=\x27electronic\x27>" "</journal_metadata>" = false := by
    decide
  simp [journalMetadataParts, countPre_append, countPre_cons, countPre_nil, countPre_ite,
    String.append_assoc, hfull, habb, hip, hie, hdoi, hres, h0, hdo, hdc, hmc]

theorem cntMeta_doidata (j : JournalRec) :
    countPre "    <doi_data>" (journalMetadataParts j) =
      if safeC j.journal_doi ≠ "" ∨ urlOrEmpty j.journal_url ≠ "" then 1 else 0 := by
  have hfull : ∀ r : String,
      hasPre "    <doi_data>" ("    <full_title>" ++ r) = false :=
    fun r => hasPre_irrel _ _ r (by decide) (by decide)
  have habb : ∀ r : String,
      hasPre "    <doi_data>" ("    <abbrev_title>" ++ r) = false :=
    fun r => hasPre_irrel _ _ r (by decide) (by decide)
  have hip : ∀ r : String,
      hasPre "    <doi_data>" ("    <issn media_type=\x27print\x27>" ++ r) = false :=
    fun r => hasPre_irrel _ _ r (by decide) (by decide)
  have hie : ∀ r : String,
      hasPre "    <doi_data>" ("    <issn media_type=\x27electronic\x27>" ++ r) = false :=
    fun r => hasPre_irrel _ _ r (by decide) (by decide)
  have hdoi : ∀ r : String,
      hasPre "    <doi_data>" ("        <doi>" ++ r) = false :=
    fun r => hasPre_irrel _ _ r (by decide) (by decide)
  have hres : ∀ r : String,
      hasPre "    <doi_data>" ("        <resource>" ++ r) = false :=
    fun r => hasPre_irrel _ _ r (by decide) (by decide)
  have h0 : hasPre "    <doi_data>" "<journal_metadata>" = false := by decide
  have hdo : hasPre "    <doi_data>" "    <doi_data>" = true := by decide
  have hdc : hasPre "    <doi_data>" "    </doi_data>" = false := by decide
  have hmc : hasPre "    <doi_data>" "</journal_metadata>" = false := by decide
  simp [journalMetadataParts, countPre_append, countPre_cons, countPre_nil, countPre_ite,
    String.append_assoc, hfull, habb, hip, hie, hdoi, hres, h0, hdo, hdc, hmc]

theorem cntMeta_resource (j : JournalRec) :
    countPre "        <resource>" (journalMetadataParts j) =
      if urlOrEmpty j.journal_url ≠ "" then 1 else 0 := by
  have hfull : ∀ r : String,
      hasPre "        <resource>" ("    <full_title>" ++ r) = false :=
    fun r => hasPre_irrel _ _ r (by decide) (by decide)
  have habb : ∀ r : String,
      hasPre "        <resource>" ("    <abbrev_title>" ++ r) = false :=
    fun r => hasPre_irrel _ _ r (by decide) (by decide)
  have hip : ∀ r : String,
      hasPre "        <resource>" ("    <issn media_type=\x27print\x27>" ++ r) = false :=
    fun r => hasPre_irrel _ _ r (by decide) (by decide)
  have hie : ∀ r : String,
      hasPre "        <resource>" ("    <issn media_type=\x27electronic\x27>" ++ r) = false :=
    fun r => hasPre_irrel _ _ r (by decide) (by decide)
  have hdoi : ∀ r : String,
      hasPre "        <resource>" ("        <doi>" ++ r) = false :=
    fun r => hasPre_irrel _ _ r (by decide) (by decide)
  have hres : ∀ r : String,
      hasPre "        <resource>" ("        <resource>" ++ r) = true :=
    fun r => hasPre_app _ r
  have h0 : hasPre "        <resource>" "<journal_metadata>" = false := by decide
  have hdo : hasPre "        <resource>" "    <doi_data>" = false := by decide
  have hdc : hasPre "        <resource>" "    </doi_data>" = false := by decide
  have hmc : hasPre "        <resource>" "</journal_metadata>" = false := by decide
  by_cases hB : urlOrEmpty j.journal_url = "" <;>
    simp [journalMetadataParts, countPre_append, countPre_cons, countPre_nil, countPre_ite,
      String.append_assoc, hfull, habb, hip, hie, hdoi, hres, h0, hdo, hdc, hmc, hB]

/-! ### Line counting over the journal issue fragment -/

theorem cntIssue_pdp (parse : Cell → Option Date) (j : JournalRec) :
    countPre "    <publication_date media_type=\x27print\x27>" (journalIssueParts parse j) =
      if (parse j.pub_date_print).isSome = true then 1 else 0 := by
  have hm : ∀ r : String,
      hasPre "    <publication_date media_type=\x27print\x27>" ("        <month>" ++ r) = false :=
    fun r => hasPre_irrel _ _ r (by decide) (by decide)
  have hd : ∀ r : String,
      hasPre "    <publication_date media_type=\x27print\x27>" ("        <day>" ++ r) = false :=
    fun r => hasPre_irrel _ _ r (by decide) (by decide)
  have hy : ∀ r : String,
      hasPre "    <publication_date media_type=\x27print\x27>" ("        <year>" ++ r) = false :=
    fun r => hasPre_irrel _ _ r (by decide) (by decide)
  have hv : ∀ r : String,
      hasPre "    <publication_date media_type=\x27print\x27>" ("        <volume>" ++ r) = false :=
    fun r => hasPre_irrel _ _ r (by decide) (by decide)
  have hi : ∀ r : String,
      hasPre "    <publication_date media_type=\x27print\x27>" ("    <issue>" ++ r) = false :=
    fun r => hasPre_irrel _ _ r (by decide) (by decide)
  have hdoi : ∀ r : String,
      hasPre "    <publication_date media_type=\x27print\x27>" ("        <doi>" ++ r) = false :=
    fun r => hasPre_irrel _ _ r (by decide) (by decide)
  have hres : ∀ r : String,
      hasPre "    <publication_date media_type=\x27print\x27>"
        ("        <resource>" ++ r) = false :=
    fun r => hasPre_irrel _ _ r (by decide) (by decide)
  have hc1 : hasPre "    <publication_date media_type=\x27print\x27>" "<journal_issue>"
      = false := by decide
  have hc2 : hasPre "    <publication_date media_type=\x27print\x27>"
      "    <publication_date media_type=\x27print\x27>" = true := by decide
  have hc3 : hasPre "    <publication_date media_type=\x27print\x27>"
      "    <publication_date media_type=\x27online\x27>" = false := by decide
  have hc4 : hasPre "    <publication_date media_type=\x27print\x27>"
      "    </publication_date>" = false := by decide
  have hc5 : hasPre "    <publication_date media_type=\x27print\x27>"
      "    <journal_volume>" = false := by decide
  have hc6 : hasPre "    <publication_date media_type=\x27print\x27>"
      "    </journal_volume>" = false := by decide
  have hc7 : hasPre "    <publication_date media_type=\x27print\x27>"
      "    <doi_data>" = false := by decide
  have hc8 : hasPre "    <publication_date media_type=\x27print\x27>"
      "    </doi_data>" = false := by decide
  have hc9 : hasPre "    <publication_date media_type=\x27print\x27>"
      "</journal_issue>" = false := by decide
  simp [journalIssueParts, countPre_append, countPre_cons, countPre_nil, countPre_ite,
    String.append_assoc, ymd_cond, hm, hd, hy, hv, hi, hdoi, hres,
    hc1, hc2, hc3, hc4, hc5, hc6, hc7, hc8, hc9]

theorem cntIssue_pdo (parse : Cell → Option Date) (j : JournalRec) :
    countPre "    <publication_date media_type=\x27online\x27>" (journalIssueParts parse j) =
      if (parse j.pub_date_online).isSome = true then 1 else 0 := by
  have hm : ∀ r : String,
      hasPre "    <publication_date media_type=\x27online\x27>" ("        <month>" ++ r) = false :=
    fun r => hasPre_irrel _ _ r (by decide) (by decide)
  have hd : ∀ r : String,
      hasPre "    <publication_date media_type=\x27online\x27>" ("        <day>" ++ r) = false :=
    fun r => hasPre_irrel _ _ r (by decide) (by decide)
  have hy : ∀ r : String,
      hasPre "    <publication_date media_type=\x27online\x27>" ("        <year>" ++ r) = false :=
    fun r => hasPre_irrel _ _ r (by decide) (by decide)
  have hv : ∀ r : String,
      hasPre "    <publication_date media_type=\x27online\x27>" ("        <volume>" ++ r) = false :=
    fun r => hasPre_irrel _ _ r (by decide) (by decide)
  have hi : ∀ r : String,
      hasPre "    <publication_date media_type=\x27online\x27>" ("    <issue>" ++ r) = false :=
    fun r => hasPre_irrel _ _ r (by decide) (by decide)
  have hdoi : ∀ r : String,
      hasPre "    <publication_date media_type=\x27online\x27>" ("        <doi>" ++ r) = false :=
    fun r => hasPre_irrel _ _ r (by decide) (by decide)
  have hres : ∀ r : String,
      hasPre "    <publication_date media_type=\x27online\x27>"
        ("        <resource>" ++ r) = false :=
    fun r => hasPre_irrel _ _ r (by decide) (by decide)
  have hc1 : hasPre "    <publication_date media_type=\x27online\x27>" "<journal_issue>"
      = false := by decide
  have hc2 : hasPre "    <publication_date media_type=\x27online\x27>"
      "    <publication_date media_type=\x27print\x27>" = false := by decide
  have hc3 : hasPre "    <publication_date media_type=\x27online\x27>"
      "    <publication_date media_type=\x27online\x27>" = true := by decide
  have hc4 : hasPre "    <publication_date media_type=\x27online\x27>"
      "    </publication_date>" = false := by decide
  have hc5 : hasPre "    <publication_date media_type=\x27online\x27>"
      "    <journal_volume>" = false := by decide
  have hc6 : hasPre "    <publication_date media_type=\x27online\x27>"
      "    </journal_volume>" = false := by decide
  have hc7 : hasPre "    <publication_date media_type=\x27online\x27>"
      "    <doi_data>" = false := by decide
  have hc8 : hasPre "    <publication_date media_type=\x27online\x27>"
      "    </doi_data>" = false := by decide
  have hc9 : hasPre "    <publication_date media_type=\x27online\x27>"
      "</journal_issue>" = false := by decide
  simp [journalIssueParts, countPre_append, countPre_cons, countPre_nil, countPre_ite,
    String.append_assoc, ymd_cond, hm, hd, hy, hv, hi, hdoi, hres,
    hc1, hc2, hc3, hc4, hc5, hc6, hc7, hc8, hc9]

theorem cntIssue_month (parse : Cell → Option Date) (j : JournalRec) :
    countPre "        <month>" (journalIssueParts parse j) =
      (if (parse j.pub_date_print).isSome = true then 1 else 0) +
      (if (parse j.pub_date_online).isSome = true then 1 else 0) := by
  have hm : ∀ r : String,
      hasPre "        <month>" ("        <month>" ++ r) = true :=
    fun r => hasPre_app _ r
  have hd : ∀ r : String,
      hasPre "        <month>" ("        <day>" ++ r) = false :=
    fun r => hasPre_irrel _ _ r (by decide) (by decide)
  have hy : ∀ r : String,
      hasPre "        <month>" ("        <year>" ++ r) = false :=
    fun r => hasPre_irrel _ _ r (by decide) (by decide)
  have hv : ∀ r : String,
      hasPre "        <month>" ("        <volume>" ++ r) = false :=
    fun r => hasPre_irrel _ _ r (by decide) (by decide)
  have hi : ∀ r : String,
      hasPre "        <month>" ("    <issue>" ++ r) = false :=
    fun r => hasPre_irrel _ _ r (by decide) (by decide)
  have hdoi : ∀ r : String,
      hasPre "        <month>" ("        <doi>" ++ r) = false :=
    fun r => hasPre_irrel _ _ r (by decide) (by decide)
  have hres : ∀ r : String,
      hasPre "        <month>" ("        <resource>" ++ r) = false :=
    fun r => hasPre_irrel _ _ r (by decide) (by decide)
  have hc1 : hasPre "        <month>" "<journal_issue>" = false := by decide
  have hc2 : hasPre "        <month>"
      "    <publication_date media_type=\x27print\x27>" = false := by decide
  have hc3 : hasPre "        <month>"
      "    <publication_date media_type=\x27online\x27>" = false := by decide
  have hc4 : hasPre "        <month>" "    </publication_date>" = false := by decide
  have hc5 : hasPre "        <month>" "    <journal_volume>" = false := by decide
  have hc6 : hasPre "        <month>" "    </journal_volume>" = false := by decide
  have hc7 : hasPre "        <month>" "    <doi_data>" = false := by decide
  have hc8 : hasPre "        <month>" "    </doi_data>" = false := by decide
  have hc9 : hasPre "        <month>" "</journal_issue>" = false := by decide
  simp [journalIssueParts, countPre_append, countPre_cons, countPre_nil, countPre_ite,
    String.append_assoc, ymd_cond, hm, hd, hy, hv, hi, hdoi, hres,
    hc1, hc2, hc3, hc4, hc5, hc6, hc7, hc8, hc9]

theorem cntIssue_day (parse : Cell → Option Date) (j : JournalRec) :
    countPre "        <day>" (journalIssueParts parse j) =
      (if (parse j.pub_date_print).isSome = true then 1 else 0) +
      (if (parse j.pub_date_online).isSome = true then 1 else 0) := by
  have hm : ∀ r : String,
      hasPre "        <day>" ("        <month>" ++ r) = false :=
    fun r => hasPre_irrel _ _ r (by decide) (by decide)
  have hd : ∀ r : String,
      hasPre "        <day>" ("        <day>" ++ r) = true :=
    fun r => hasPre_app _ r
  have hy : ∀ r : String,
      hasPre "        <day>" ("        <year>" ++ r) = false :=
    fun r => hasPre_irrel _ _ r (by decide) (by decide)
  have hv : ∀ r : String,
      hasPre "        <day>" ("        <volume>" ++ r) = false :=
    fun r => hasPre_irrel _ _ r (by decide) (by decide)
  have hi : ∀ r : String,
      hasPre "        <day>" ("    <issue>" ++ r) = false :=
    fun r => hasPre_irrel _ _ r (by decide) (by decide)
  have hdoi : ∀ r : String,
      hasPre "        <day>" ("        <doi>" ++ r) = false :=
    fun r => hasPre_irrel _ _ r (by decide) (by decide)
  have hres : ∀ r : String,
      hasPre "        <day>" ("        <resource>" ++ r) = false :=
    fun r => hasPre_irrel _ _ r (by decide) (by decide)
  have hc1 : hasPre "        <day>" "<journal_issue>" = false := by decide
  have hc2 : hasPre "        <day>"
      "    <publication_date media_type=\x27print\x27>" = false := by decide
  have hc3 : hasPre "        <day>"
      "    <publication_date media_type=\x27online\x27>" = false := by decide
  have hc4 : hasPre "        <day>" "    </publication_date>" = false := by decide
  have hc5 : hasPre "        <day>" "    <journal_volume>" = false := by decide
  have hc6 : hasPre "        <day>" "    </journal_volume>" = false := by decide
  have hc7 : hasPre "        <day>" "    <doi_data>" = false := by decide
  have hc8 : hasPre "        <day>" "    </doi_data>" = false := by decide
  have hc9 : hasPre "        <day>" "</journal_issue>" = false := by decide
  simp [journalIssueParts, countPre_append, countPre_cons, countPre_nil, countPre_ite,
    String.append_assoc, ymd_cond, hm, hd, hy, hv, hi, hdoi, hres,
    hc1, hc2, hc3, hc4, hc5, hc6, hc7, hc8, hc9]

theorem cntIssue_year (parse : Cell → Option Date) (j : JournalRec) :
    countPre "        <year>" (journalIssueParts parse j) =
      (if (parse j.pub_date_print).isSome = true then 1 else 0) +
      (if (parse j.pub_date_online).isSome = true then 1 else 0) := by
  have hm : ∀ r : String,
      hasPre "        <year>" ("        <month>" ++ r) = false :=
    fun r => hasPre_irrel _ _ r (by decide) (by decide)
  have hd : ∀ r : String,
      hasPre "        <year>" ("        <day>" ++ r) = false :=
    fun r => hasPre_irrel _ _ r (by decide) (by decide)
  have hy : ∀ r : String,
      hasPre "        <year>" ("        <year>" ++ r) = true :=
    fun r => hasPre_app _ r
  have hv : ∀ r : String,
      hasPre "        <year>" ("        <volume>" ++ r) = false :=
    fun r => hasPre_irrel _ _ r (by decide) (by decide)
  have hi : ∀ r : String,
      hasPre "        <year>" ("    <issue>" ++ r) = false :=
    fun r => hasPre_irrel _ _ r (by decide) (by decide)
  have hdoi : ∀ r : String,
      hasPre "        <year>" ("        <doi>" ++ r) = false :=
    fun r => hasPre_irrel _ _ r (by decide) (by decide)
  have hres : ∀ r : String,
      hasPre "        <year>" ("        <resource>" ++ r) = false :=
    fun r => hasPre_irrel _ _ r (by decide) (by decide)
  have hc1 : hasPre "        <year>" "<journal_issue>" = false := by decide
  have hc2 : hasPre "        <year>"
      "    <publication_date media_type=\x27print\x27>" = false := by decide
  have hc3 : hasPre "        <year>"
      "    <publication_date media_type=\x27online\x27>" = false := by decide
  have hc4 : hasPre "        <year>" "    </publication_date>" = false := by decide
  have hc5 : hasPre "        <year>" "    <journal_volume>" = false := by decide
  have hc6 : hasPre "        <year>" "    </journal_volume>" = false := by decide
  have hc7 : hasPre "        <year>" "    <doi_data>" = false := by decide
  have hc8 : hasPre "        <year>" "    </doi_data>" = false := by decide
  have hc9 : hasPre "        <year>" "</journal_issue>" = false := by decide
  simp [journalIssueParts, countPre_append, countPre_cons, countPre_nil, countPre_ite,
    String.append_assoc, ymd_cond, hm, hd, hy, hv, hi, hdoi, hres,
    hc1, hc2, hc3, hc4, hc5, hc6, hc7, hc8, hc9]

theorem cntIssue_resource (parse : Cell → Option Date) (j : JournalRec) :
    countPre "        <resource>" (journalIssueParts parse j) =
      if urlOrEmpty j.issue_url ≠ "" then 1 else 0 := by
  have hm : ∀ r : String,
      hasPre "        <resource>" ("        <month>" ++ r) = false :=
    fun r => hasPre_irrel _ _ r (by decide) (by decide)
  have hd : ∀ r : String,
      hasPre "        <resource>" ("        <day>" ++ r) = false :=
    fun r => hasPre_irrel _ _ r (by decide) (by decide)
  have hy : ∀ r : String,
      hasPre "        <resource>" ("        <year>" ++ r) = false :=
    fun r => hasPre_irrel _ _ r (by decide) (by decide)
  have hv : ∀ r : String,
      hasPre "        <resource>" ("        <volume>" ++ r) = false :=
    fun r => hasPre_irrel _ _ r (by decide) (by decide)
  have hi : ∀ r : String,
      hasPre "        <resource>" ("    <issue>" ++ r) = false :=
    fun r => hasPre_irrel _ _ r (by decide) (by decide)
  have hdoi : ∀ r : String,
      hasPre "        <resource>" ("        <doi>" ++ r) = false :=
    fun r => hasPre_irrel _ _ r (by decide) (by decide)
  have hres : ∀ r : String,
      hasPre "        <resource>" ("        <resource>" ++ r) = true :=
    fun r => hasPre_app _ r
  have hc1 : hasPre "        <resource>" "<journal_issue>" = false := by decide
  have hc2 : hasPre "        <resource>"
      "    <publication_date media_type=\x27print\x27>" = false := by decide
  have hc3 : hasPre "        <resource>"
      "    <publication_date media_type=\x27online\x27>" = false := by decide
  have hc4 : hasPre "        <resource>" "    </publication_date>" = false := by decide
  have hc5 : hasPre "        <resource>" "    <journal_volume>" = false := by decide
  have hc6 : hasPre "        <resource>" "    </journal_volume>" = false := by decide
  have hc7 : hasPre "        <resource>" "    <doi_data>" = false := by decide
  have hc8 : hasPre "        <resource>" "    </doi_data>" = false := by decide
  have hc9 : hasPre "        <resource>" "</journal_issue>" = false := by decide
  by_cases hB : urlOrEmpty j.issue_url = "" <;>
    simp [journalIssueParts, countPre_append, countPre_cons, countPre_nil, countPre_ite,
      String.append_assoc, ymd_cond, hm, hd, hy, hv, hi, hdoi, hres,
      hc1, hc2, hc3, hc4, hc5, hc6, hc7, hc8, hc9, hB]

/-! ### Line counting over contributors and article blocks -/

theorem countPre_personParts_zero (pre seq : String) (a : Author)
    (h1 : ∀ r : String, hasPre pre
      ("            <person_name contributor_role=\x27author\x27 sequence=\x27" ++ r) = false)
    (h2 : ∀ r : String, hasPre pre ("                <given_name>" ++ r) = false)
    (h3 : ∀ r : String, hasPre pre ("                <surname>" ++ r) = false)
    (h4 : ∀ r : String, hasPre pre ("                <affiliation>" ++ r) = false)
    (h5 : hasPre pre "            </person_name>" = false) :
    countPre pre (personParts seq a) = 0 := by
  simp [personParts, countPre_append, countPre_cons, countPre_nil, countPre_ite,
    String.append_assoc, h1, h2, h3, h4, h5]

theorem countPre_contribGo_zero (pre : String) (fw : Bool) (l : List Author)
    (h1 : ∀ r : String, hasPre pre
      ("            <person_name contributor_role=\x27author\x27 sequence=\x27" ++ r) = false)
    (h2 : ∀ r : String, hasPre pre ("                <given_name>" ++ r) = false)
    (h3 : ∀ r : String, hasPre pre ("                <surname>" ++ r) = false)
    (h4 : ∀ r : String, hasPre pre ("                <affiliation>" ++ r) = false)
    (h5 : hasPre pre "            </person_name>" = false) :
    countPre pre (contribGo fw l) = 0 := by
  induction l generalizing fw with
  | nil => rfl
  | cons a t ih =>
      unfold contribGo
      by_cases hf : safeC a.fname = ""
      · simp only [hf, if_pos]
        exact ih fw
      · rw [if_neg hf, countPre_append,
          countPre_personParts_zero pre _ a h1 h2 h3 h4 h5, ih true]

/-! ### Line counting over one article block -/

theorem cntArt_jaopen (parse : Cell → Option Date) (a : ArticleRec) :
    countPre "    <journal_article" (articleParts parse a) = 1 := by
  have ht : ∀ r : String, hasPre "    <journal_article" ("            <title>" ++ r) = false :=
    fun r => hasPre_irrel _ _ r (by decide) (by decide)
  have hm : ∀ r : String, hasPre "    <journal_article" ("            <month>" ++ r) = false :=
    fun r => hasPre_irrel _ _ r (by decide) (by decide)
  have hd : ∀ r : String, hasPre "    <journal_article" ("            <day>" ++ r) = false :=
    fun r => hasPre_irrel _ _ r (by decide) (by decide)
  have hy : ∀ r : String, hasPre "    <journal_article" ("            <year>" ++ r) = false :=
    fun r => hasPre_irrel _ _ r (by decide) (by decide)
  have hdoi : ∀ r : String, hasPre "    <journal_article" ("            <doi>" ++ r) = false :=
    fun r => hasPre_irrel _ _ r (by decide) (by decide)
  have hres : ∀ r : String, hasPre "    <journal_article" ("            <resource>" ++ r) = false :=
    fun r => hasPre_irrel _ _ r (by decide) (by decide)
  have hc1 : hasPre "    <journal_article" "    <journal_article publication_type=\"full_text\">" = true := by decide
  have hc2 : hasPre "    <journal_article" "        <titles>" = false := by decide
  have hc3 : hasPre "    <journal_article" "        </titles>" = false := by decide
  have hc4 : hasPre "    <journal_article" "        <contributors>" = false := by decide
  have hc5 : hasPre "    <journal_article" "        </contributors>" = false := by decide
  have hc6 : hasPre "    <journal_article" "        <publication_date media_type=\x27online\x27>" = false := by decide
  have hc7 : hasPre "    <journal_article" "        </publication_date>" = false := by decide
  have hc8 : hasPre "    <journal_article" "        <doi_data>" = false := by decide
  have hc9 : hasPre "    <journal_article" "        </doi_data>" = false := by decide
  have hc10 : hasPre "    <journal_article" "    </journal_article>" = false := by decide
  have hp1 : ∀ r : String, hasPre "    <journal_article" ("            <person_name contributor_role=\x27author\x27 sequence=\x27" ++ r) = false :=
    fun r => hasPre_irrel _ _ r (by decide) (by decide)
  have hp2 : ∀ r : String, hasPre "    <journal_article" ("                <given_name>" ++ r) = false :=
    fun r => hasPre_irrel _ _ r (by decide) (by decide)
  have hp3 : ∀ r : String, hasPre "    <journal_article" ("                <surname>" ++ r) = false :=
    fun r => hasPre_irrel _ _ r (by decide) (by decide)
  have hp4 : ∀ r : String, hasPre "    <journal_article" ("                <affiliation>" ++ r) = false :=
    fun r => hasPre_irrel _ _ r (by decide) (by decide)
  have hp5 : hasPre "    <journal_article" "            </person_name>" = false := by decide
  have hcg := countPre_contribGo_zero "    <journal_article" false (authorsOf a) hp1 hp2 hp3 hp4 hp5
  simp [articleParts, countPre_append, countPre_cons, countPre_nil, countPre_ite,
    String.append_assoc, ymd_cond, ht, hm, hd, hy, hdoi, hres,
    hc1, hc2, hc3, hc4, hc5, hc6, hc7, hc8, hc9, hc10, hcg]

theorem cntArt_pd (parse : Cell → Option Date) (a : ArticleRec) :
    countPre "        <publication_date media_type=\x27online\x27>" (articleParts parse a) = if (parse a.publication_date).isSome = true then 1 else 0 := by
  have ht : ∀ r : String, hasPre "        <publication_date media_type=\x27online\x27>" ("            <title>" ++ r) = false :=
    fun r => hasPre_irrel _ _ r (by decide) (by decide)
  have hm : ∀ r : String, hasPre "        <publication_date media_type=\x27online\x27>" ("            <month>" ++ r) = false :=
    fun r => hasPre_irrel _ _ r (by decide) (by decide)
  have hd : ∀ r : String, hasPre "        <publication_date media_type=\x27online\x27>" ("            <day>" ++ r) = false :=
    fun r => hasPre_irrel _ _ r (by decide) (by decide)
  have hy : ∀ r : String, hasPre "        <publication_date media_type=\x27online\x27>" ("            <year>" ++ r) = false :=
    fun r => hasPre_irrel _ _ r (by decide) (by decide)
  have hdoi : ∀ r : String, hasPre "        <publication_date media_type=\x27online\x27>" ("            <doi>" ++ r) = false :=
    fun r => hasPre_irrel _ _ r (by decide) (by decide)
  have hres : ∀ r : String, hasPre "        <publication_date media_type=\x27online\x27>" ("            <resource>" ++ r) = false :=
    fun r => hasPre_irrel _ _ r (by decide) (by decide)
  have hc1 : hasPre "        <publication_date media_type=\x27online\x27>" "    <journal_article publication_type=\"full_text\">" = false := by decide
  have hc2 : hasPre "        <publication_date media_type=\x27online\x27>" "        <titles>" = false := by decide
  have hc3 : hasPre "        <publication_date media_type=\x27online\x27>" "        </titles>" = false := by decide
  have hc4 : hasPre "        <publication_date media_type=\x27online\x27>" "        <contributors>" = false := by decide
  have hc5 : hasPre "        <publication_date media_type=\x27online\x27>" "        </contributors>" = false := by decide
  have hc6 : hasPre "        <publication_date media_type=\x27online\x27>" "        <publication_date media_type=\x27online\x27>" = true := by decide
  have hc7 : hasPre "        <publication_date media_type=\x27online\x27>" "        </publication_date>" = false := by decide
  have hc8 : hasPre "        <publication_date media_type=\x27online\x27>" "        <doi_data>" = false := by decide
  have hc9 : hasPre "        <publication_date media_type=\x27online\x27>" "        </doi_data>" = false := by decide
  have hc10 : hasPre "        <publication_date media_type=\x27online\x27>" "    </journal_article>" = false := by decide
  have hp1 : ∀ r : String, hasPre "        <publication_date media_type=\x27online\x27>" ("            <person_name contributor_role=\x27author\x27 sequence=\x27" ++ r) = false :=
    fun r => hasPre_irrel _ _ r (by decide) (by decide)
  have hp2 : ∀ r : String, hasPre "        <publication_date media_type=\x27online\x27>" ("                <given_name>" ++ r) = false :=
    fun r => hasPre_irrel _ _ r (by decide) (by decide)
  have hp3 : ∀ r : String, hasPre "        <publication_date media_type=\x27online\x27>" ("                <surname>" ++ r) = false :=
    fun r => hasPre_irrel _ _ r (by decide) (by decide)
  have hp4 : ∀ r : String, hasPre "        <publication_date media_type=\x27online\x27>" ("                <affiliation>" ++ r) = false :=
    fun r => hasPre_irrel _ _ r (by decide) (by decide)
  have hp5 : hasPre "        <publication_date media_type=\x27online\x27>" "            </person_name>" = false := by decide
  have hcg := countPre_contribGo_zero "        <publication_date media_type=\x27online\x27>" false (authorsOf a) hp1 hp2 hp3 hp4 hp5
  simp [articleParts, countPre_append, countPre_cons, countPre_nil, countPre_ite,
    String.append_assoc, ymd_cond, ht, hm, hd, hy, hdoi, hres,
    hc1, hc2, hc3, hc4, hc5, hc6, hc7, hc8, hc9, hc10, hcg]

theorem cntArt_month (parse : Cell → Option Date) (a : ArticleRec) :
    countPre "            <month>" (articleParts parse a) = if (parse a.publication_date).isSome = true then 1 else 0 := by
  have ht : ∀ r : String, hasPre "            <month>" ("            <title>" ++ r) = false :=
    fun r => hasPre_irrel _ _ r (by decide) (by decide)
  have hm : ∀ r : String, hasPre "            <month>" ("            <month>" ++ r) = true :=
    fun r => hasPre_app _ r
  have hd : ∀ r : String, hasPre "            <month>" ("            <day>" ++ r) = false :=
    fun r => hasPre_irrel _ _ r (by decide) (by decide)
  have hy : ∀ r : String, hasPre "            <month>" ("            <year>" ++ r) = false :=
    fun r => hasPre_irrel _ _ r (by decide) (by decide)
  have hdoi : ∀ r : String, hasPre "            <month>" ("            <doi>" ++ r) = false :=
    fun r => hasPre_irrel _ _ r (by decide) (by decide)
  have hres : ∀ r : String, hasPre "            <month>" ("            <resource>" ++ r) = false :=
    fun r => hasPre_irrel _ _ r (by decide) (by decide)
  have hc1 : hasPre "            <month>" "    <journal_article publication_type=\"full_text\">" = false := by decide
  have hc2 : hasPre "            <month>" "        <titles>" = false := by decide
  have hc3 : hasPre "            <month>" "        </titles>" = false := by decide
  have hc4 : hasPre "            <month>" "        <contributors>" = false := by decide
  have hc5 : hasPre "            <month>" "        </contributors>" = false := by decide
  have hc6 : hasPre "            <month>" "        <publication_date media_type=\x27online\x27>" = false := by decide
  have hc7 : hasPre "            <month>" "        </publication_date>" = false := by decide
  have hc8 : hasPre "            <month>" "        <doi_data>" = false := by decide
  have hc9 : hasPre "            <month>" "        </doi_data>" = false := by decide
  have hc10 : hasPre "            <month>" "    </journal_article>" = false := by decide
  have hp1 : ∀ r : String, hasPre "            <month>" ("            <person_name contributor_role=\x27author\x27 sequence=\x27" ++ r) = false :=
    fun r => hasPre_irrel _ _ r (by decide) (by decide)
  have hp2 : ∀ r : String, hasPre "            <month>" ("                <given_name>" ++ r) = false :=
    fun r => hasPre_irrel _ _ r (by decide) (by decide)
  have hp3 : ∀ r : String, hasPre "            <month>" ("                <surname>" ++ r) = false :=
    fun r => hasPre_irrel _ _ r (by decide) (by decide)
  have hp4 : ∀ r : String, hasPre "            <month>" ("                <affiliation>" ++ r) = false :=
    fun r => hasPre_irrel _ _ r (by decide) (by decide)
  have hp5 : hasPre "            <month>" "            </person_name>" = false := by decide
  have hcg := countPre_contribGo_zero "            <month>" false (authorsOf a) hp1 hp2 hp3 hp4 hp5
  simp [articleParts, countPre_append, countPre_cons, countPre_nil, countPre_ite,
    String.append_assoc, ymd_cond, ht, hm, hd, hy, hdoi, hres,
    hc1, hc2, hc3, hc4, hc5, hc6, hc7, hc8, hc9, hc10, hcg]

theorem cntArt_day (parse : Cell → Option Date) (a : ArticleRec) :
    countPre "            <day>" (articleParts parse a) = if (parse a.publication_date).isSome = true then 1 else 0 := by
  have ht : ∀ r : String, hasPre "            <day>" ("            <title>" ++ r) = false :=
    fun r => hasPre_irrel _ _ r (by decide) (by decide)
  have hm : ∀ r : String, hasPre "            <day>" ("            <month>" ++ r) = false :=
    fun r => hasPre_irrel _ _ r (by decide) (by decide)
  have hd : ∀ r : String, hasPre "            <day>" ("            <day>" ++ r) = true :=
    fun r => hasPre_app _ r
  have hy : ∀ r : String, hasPre "            <day>" ("            <year>" ++ r) = false :=
    fun r => hasPre_irrel _ _ r (by decide) (by decide)
  have hdoi : ∀ r : String, hasPre "            <day>" ("            <doi>" ++ r) = false :=
    fun r => hasPre_irrel _ _ r (by decide) (by decide)
  have hres : ∀ r : String, hasPre "            <day>" ("            <resource>" ++ r) = false :=
    fun r => hasPre_irrel _ _ r (by decide) (by decide)
  have hc1 : hasPre "            <day>" "    <journal_article publication_type=\"full_text\">" = false := by decide
  have hc2 : hasPre "            <day>" "        <titles>" = false := by decide
  have hc3 : hasPre "            <day>" "        </titles>" = false := by decide
  have hc4 : hasPre "            <day>" "        <contributors>" = false := by decide
  have hc5 : hasPre "            <day>" "        </contributors>" = false := by decide
  have hc6 : hasPre "            <day>" "        <publication_date media_type=\x27online\x27>" = false := by decide
  have hc7 : hasPre "            <day>" "        </publication_date>" = false := by decide
  have hc8 : hasPre "            <day>" "        <doi_data>" = false := by decide
  have hc9 : hasPre "            <day>" "        </doi_data>" = false := by decide
  have hc10 : hasPre "            <day>" "    </journal_article>" = false := by decide
  have hp1 : ∀ r : String, hasPre "            <day>" ("            <person_name contributor_role=\x27author\x27 sequence=\x27" ++ r) = false :=
    fun r => hasPre_irrel _ _ r (by decide) (by decide)
  have hp2 : ∀ r : String, hasPre "            <day>" ("                <given_name>" ++ r) = false :=
    fun r => hasPre_irrel _ _ r (by decide) (by decide)
  have hp3 : ∀ r : String, hasPre "            <day>" ("                <surname>" ++ r) = false :=
    fun r => hasPre_irrel _ _ r (by decide) (by decide)
  have hp4 : ∀ r : String, hasPre "            <day>" ("                <affiliation>" ++ r) = false :=
    fun r => hasPre_irrel _ _ r (by decide) (by decide)
  have hp5 : hasPre "            <day>" "            </person_name>" = false := by decide
  have hcg := countPre_contribGo_zero "            <day>" false (authorsOf a) hp1 hp2 hp3 hp4 hp5
  simp [articleParts, countPre_append, countPre_cons, countPre_nil, countPre_ite,
    String.append_assoc, ymd_cond, ht, hm, hd, hy, hdoi, hres,
    hc1, hc2, hc3, hc4, hc5, hc6, hc7, hc8, hc9, hc10, hcg]

theorem cntArt_year (parse : Cell → Option Date) (a : ArticleRec) :
    countPre "            <year>" (articleParts parse a) = if (parse a.publication_date).isSome = true then 1 else 0 := by
  have ht : ∀ r : String, hasPre "            <year>" ("            <title>" ++ r) = false :=
    fun r => hasPre_irrel _ _ r (by decide) (by decide)
  have hm : ∀ r : String, hasPre "            <year>" ("            <month>" ++ r) = false :=
    fun r => hasPre_irrel _ _ r (by decide) (by decide)
  have hd : ∀ r : String, hasPre "            <year>" ("            <day>" ++ r) = false :=
    fun r => hasPre_irrel _ _ r (by decide) (by decide)
  have hy : ∀ r : String, hasPre "            <year>" ("            <year>" ++ r) = true :=
    fun r => hasPre_app _ r
  have hdoi : ∀ r : String, hasPre "            <year>" ("            <doi>" ++ r) = false :=
    fun r => hasPre_irrel _ _ r (by decide) (by decide)
  have hres : ∀ r : String, hasPre "            <year>" ("            <resource>" ++ r) = false :=
    fun r => hasPre_irrel _ _ r (by decide) (by decide)
  have hc1 : hasPre "            <year>" "    <journal_article publication_type=\"full_text\">" = false := by decide
  have hc2 : hasPre "            <year>" "        <titles>" = false := by decide
  have hc3 : hasPre "            <year>" "        </titles>" = false := by decide
  have hc4 : hasPre "            <year>" "        <contributors>" = false := by decide
  have hc5 : hasPre "            <year>" "        </contributors>" = false := by decide
  have hc6 : hasPre "            <year>" "        <publication_date media_type=\x27online\x27>" = false := by decide
  have hc7 : hasPre "            <year>" "        </publication_date>" = false := by decide
  have hc8 : hasPre "            <year>" "        <doi_data>" = false := by decide
  have hc9 : hasPre "            <year>" "        </doi_data>" = false := by decide
  have hc10 : hasPre "            <year>" "    </journal_article>" = false := by decide
  have hp1 : ∀ r : String, hasPre "            <year>" ("            <person_name contributor_role=\x27author\x27 sequence=\x27" ++ r) = false :=
    fun r => hasPre_irrel _ _ r (by decide) (by decide)
  have hp2 : ∀ r : String, hasPre "            <year>" ("                <given_name>" ++ r) = false :=
    fun r => hasPre_irrel _ _ r (by decide) (by decide)
  have hp3 : ∀ r : String, hasPre "            <year>" ("                <surname>" ++ r) = false :=
    fun r => hasPre_irrel _ _ r (by decide) (by decide)
  have hp4 : ∀ r : String, hasPre "            <year>" ("                <affiliation>" ++ r) = false :=
    fun r => hasPre_irrel _ _ r (by decide) (by decide)
  have hp5 : hasPre "            <year>" "            </person_name>" = false := by decide
  have hcg := countPre_contribGo_zero "            <year>" false (authorsOf a) hp1 hp2 hp3 hp4 hp5
  simp [articleParts, countPre_append, countPre_cons, countPre_nil, countPre_ite,
    String.append_assoc, ymd_cond, ht, hm, hd, hy, hdoi, hres,
    hc1, hc2, hc3, hc4, hc5, hc6, hc7, hc8, hc9, hc10, hcg]

theorem cntPerson_surname (seq : String) (a : Author) :
    countPre "                <surname>" (personParts seq a) =
      if safeC a.lname ≠ "" then 1 else 0 := by
  have h1 : ∀ r : String, hasPre "                <surname>"
      ("            <person_name contributor_role=\x27author\x27 sequence=\x27" ++ r) = false :=
    fun r => hasPre_irrel _ _ r (by decide) (by decide)
  have h2 : ∀ r : String,
      hasPre "                <surname>" ("                <given_name>" ++ r) = false :=
    fun r => hasPre_irrel _ _ r (by decide) (by decide)
  have h3 : ∀ r : String,
      hasPre "                <surname>" ("                <surname>" ++ r) = true :=
    fun r => hasPre_app _ r
  have h4 : ∀ r : String,
      hasPre "                <surname>" ("                <affiliation>" ++ r) = false :=
    fun r => hasPre_irrel _ _ r (by decide) (by decide)
  have h5 : hasPre "                <surname>" "            </person_name>" = false := by decide
  simp [personParts, countPre_append, countPre_cons, countPre_nil, countPre_ite,
    String.append_assoc, h1, h2, h3, h4, h5]

theorem cntPerson_affil (seq : String) (a : Author) :
    countPre "                <affiliation>" (personParts seq a) =
      if safeC a.inst ≠ "" then 1 else 0 := by
  have h1 : ∀ r : String, hasPre "                <affiliation>"
      ("            <person_name contributor_role=\x27author\x27 sequence=\x27" ++ r) = false :=
    fun r => hasPre_irrel _ _ r (by decide) (by decide)
  have h2 : ∀ r : String,
      hasPre "                <affiliation>" ("                <given_name>" ++ r) = false :=
    fun r => hasPre_irrel _ _ r (by decide) (by decide)
  have h3 : ∀ r : String,
      hasPre "                <affiliation>" ("                <surname>" ++ r) = false :=
    fun r => hasPre_irrel _ _ r (by decide) (by decide)
  have h4 : ∀ r : String,
      hasPre "                <affiliation>" ("                <affiliation>" ++ r) = true :=
    fun r => hasPre_app _ r
  have h5 : hasPre "                <affiliation>" "            </person_name>" = false := by
    decide
  simp [personParts, countPre_append, countPre_cons, countPre_nil, countPre_ite,
    String.append_assoc, h1, h2, h3, h4, h5]

theorem cntPerson_open (seq : String) (a : Author) :
    countPre "            <person_name" (personParts seq a) = 1 := by
  have h1 : ∀ r : String, hasPre "            <person_name"
      ("            <person_name contributor_role=\x27author\x27 sequence=\x27" ++ r) = true :=
    fun r => hasPre_trans _ _ r (by decide)
  have h2 : ∀ r : String,
      hasPre "            <person_name" ("                <given_name>" ++ r) = false :=
    fun r => hasPre_irrel _ _ r (by decide) (by decide)
  have h3 : ∀ r : String,
      hasPre "            <person_name" ("                <surname>" ++ r) = false :=
    fun r => hasPre_irrel _ _ r (by decide) (by decide)
  have h4 : ∀ r : String,
      hasPre "            <person_name" ("                <affiliation>" ++ r) = false :=
    fun r => hasPre_irrel _ _ r (by decide) (by decide)
  have h5 : hasPre "            <person_name" "            </person_name>" = false := by decide
  simp [personParts, countPre_append, countPre_cons, countPre_nil, countPre_ite,
    String.append_assoc, h1, h2, h3, h4, h5]

/-! ### The article loop: abort on a missing resource, in-order blocks otherwise -/

theorem buildArticles_ok (parse : Cell → Option Date) (l : List ArticleRec)
    (h : ∀ a ∈ l, urlOrEmpty a.fulltext_url ≠ "") :
    buildArticles parse l =
      Except.ok (l.map (fun a => String.intercalate "\n" (articleParts parse a))) := by
  induction l with
  | nil => rfl
  | cons a t ih =>
      unfold buildArticles
      rw [if_neg (h a (by simp)), ih (fun b hb => h b (by simp [hb]))]
      rfl

theorem buildArticles_err (parse : Cell → Option Date) (l : List ArticleRec)
    (h : ∃ a ∈ l, urlOrEmpty a.fulltext_url = "") :
    ∃ e, buildArticles parse l = Except.error e := by
  induction l with
  | nil => simp at h
  | cons a t ih =>
      unfold buildArticles
      by_cases ha : urlOrEmpty a.fulltext_url = ""
      · exact ⟨errMsg a, by rw [if_pos ha]⟩
      · have ht : ∃ b ∈ t, urlOrEmpty b.fulltext_url = "" := by
          rcases h with ⟨b, hb, hu⟩
          rcases List.mem_cons.mp hb with rfl | hbt
          · exact absurd hu ha
          · exact ⟨b, hbt, hu⟩
        obtain ⟨e, he⟩ := ih ht
        refine ⟨e, ?_⟩
        rw [if_neg ha, he]

/-- C1: if any article record's resource URL is absent or fails URL
validation, article-XML construction raises the `ValueError` (here: returns
`Except.error`), the same error propagates through `generate_xml`, and so the
run aborts before `write_to_xml_file` — no output is written (output is
written only from the `.ok` branch, after the full document is assembled). -/
theorem c1_missing_resource_aborts (parse : Cell → Option Date) (j : JournalRec)
    (articles : List ArticleRec) (base timestamp : String)
    (h : ∃ a ∈ articles, urlOrEmpty a.fulltext_url = "") :
    ∃ e, createArticleXml parse articles = Except.error e ∧
      generateXml parse j articles base timestamp = Except.error e := by
  obtain ⟨e, he⟩ := buildArticles_err parse articles h
  refine ⟨e, ?_, ?_⟩
  · unfold createArticleXml
    rw [he]
  · unfold generateXml createArticleXml
    rw [he]

/-- Witness for C1: one article whose `fulltext_url` is missing. -/
theorem c1_missing_resource_aborts_w :
    (∃ a ∈ [ArticleRec.mk (Cell.str "A1") Cell.missing Cell.missing Cell.missing
        (Author.mk Cell.missing Cell.missing Cell.missing Cell.missing)
        (Author.mk Cell.missing Cell.missing Cell.missing Cell.missing)
        (Author.mk Cell.missing Cell.missing Cell.missing Cell.missing)
        (Author.mk Cell.missing Cell.missing Cell.missing Cell.missing)
        (Author.mk Cell.missing Cell.missing Cell.missing Cell.missing)],
      urlOrEmpty a.fulltext_url = "") ∧
    ∃ e, createArticleXml (fun _ => none)
        [ArticleRec.mk (Cell.str "A1") Cell.missing Cell.missing Cell.missing
          (Author.mk Cell.missing Cell.missing Cell.missing Cell.missing)
          (Author.mk Cell.missing Cell.missing Cell.missing Cell.missing)
          (Author.mk Cell.missing Cell.missing Cell.missing Cell.missing)
          (Author.mk Cell.missing Cell.missing Cell.missing Cell.missing)
          (Author.mk Cell.missing Cell.missing Cell.missing Cell.missing)] = Except.error e ∧
      generateXml (fun _ => none)
        (JournalRec.mk Cell.missing Cell.missing Cell.missing Cell.missing Cell.missing
          Cell.missing Cell.missing Cell.missing Cell.missing Cell.missing
          Cell.missing Cell.missing)
        [ArticleRec.mk (Cell.str "A1") Cell.missing Cell.missing Cell.missing
          (Author.mk Cell.missing Cell.missing Cell.missing Cell.missing)
          (Author.mk Cell.missing Cell.missing Cell.missing Cell.missing)
          (Author.mk Cell.missing Cell.missing Cell.missing Cell.missing)
          (Author.mk Cell.missing Cell.missing Cell.missing Cell.missing)
          (Author.mk Cell.missing Cell.missing Cell.missing Cell.missing)]
        "base" "20240101000000" = Except.error e :=
  ⟨by decide, c1_missing_resource_aborts (fun _ => none) _ _ "base" "20240101000000" (by decide)⟩

/-- C6: when every record has a valid resource URL, `create_article_xml`
returns the concatenation of exactly one `journal_article` block per record,
in the order of the source rows, and each block has exactly one
`journal_article` opening line. -/
theorem c6_article_blocks_in_order (parse : Cell → Option Date)
    (articles : List ArticleRec)
    (h : ∀ a ∈ articles, urlOrEmpty a.fulltext_url ≠ "") :
    createArticleXml parse articles =
      Except.ok (String.intercalate "\n"
        (articles.map (fun a => String.intercalate "\n" (articleParts parse a))))
  ∧ ∀ a ∈ articles, countPre "    <journal_article" (articleParts parse a) = 1 := by
  refine ⟨?_, fun a _ => cntArt_jaopen parse a⟩
  unfold createArticleXml
  rw [buildArticles_ok parse articles h]

/-- Witness for C6: two articles, both with valid resource URLs. -/
theorem c6_article_blocks_in_order_w :
    (∀ a ∈ [ArticleRec.mk (Cell.str "A1") Cell.missing (Cell.str "https://x.org/1") Cell.missing
        (Author.mk Cell.missing Cell.missing Cell.missing Cell.missing)
        (Author.mk Cell.missing Cell.missing Cell.missing Cell.missing)
        (Author.mk Cell.missing Cell.missing Cell.missing Cell.missing)
        (Author.mk Cell.missing Cell.missing Cell.missing Cell.missing)
        (Author.mk Cell.missing Cell.missing Cell.missing Cell.missing),
      ArticleRec.mk (Cell.str "A2") Cell.missing (Cell.str "https://x.org/2") Cell.missing
        (Author.mk Cell.missing Cell.missing Cell.missing Cell.missing)
        (Author.mk Cell.missing Cell.missing Cell.missing Cell.missing)
        (Author.mk Cell.missing Cell.missing Cell.missing Cell.missing)
        (Author.mk Cell.missing Cell.missing Cell.missing Cell.missing)
        (Author.mk Cell.missing Cell.missing Cell.missing Cell.missing)],
      urlOrEmpty a.fulltext_url ≠ "") ∧
    createArticleXml (fun _ => none)
      [ArticleRec.mk (Cell.str "A1") Cell.missing (Cell.str "https://x.org/1") Cell.missing
        (Author.mk Cell.missing Cell.missing Cell.missing Cell.missing)
        (Author.mk Cell.missing Cell.missing Cell.missing Cell.missing)
        (Author.mk Cell.missing Cell.missing Cell.missing Cell.missing)
        (Author.mk Cell.missing Cell.missing Cell.missing Cell.missing)
        (Author.mk Cell.missing Cell.missing Cell.missing Cell.missing),
       ArticleRec.mk (Cell.str "A2") Cell.missing (Cell.str "https://x.org/2") Cell.missing
        (Author.mk Cell.missing Cell.missing Cell.missing Cell.missing)
        (Author.mk Cell.missing Cell.missing Cell.missing Cell.missing)
        (Author.mk Cell.missing Cell.missing Cell.missing Cell.missing)
        (Author.mk Cell.missing Cell.missing Cell.missing Cell.missing)
        (Author.mk Cell.missing Cell.missing Cell.missing Cell.missing)] =
      Except.ok (String.intercalate "\n"
        ([ArticleRec.mk (Cell.str "A1") Cell.missing (Cell.str "https://x.org/1") Cell.missing
          (Author.mk Cell.missing Cell.missing Cell.missing Cell.missing)
          (Author.mk Cell.missing Cell.missing Cell.missing Cell.missing)
          (Author.mk Cell.missing Cell.missing Cell.missing Cell.missing)
          (Author.mk Cell.missing Cell.missing Cell.missing Cell.missing)
          (Author.mk Cell.missing Cell.missing Cell.missing Cell.missing),
         ArticleRec.mk (Cell.str "A2") Cell.missing (Cell.str "https://x.org/2") Cell.missing
          (Author.mk Cell.missing Cell.missing Cell.missing Cell.missing)
          (Author.mk Cell.missing Cell.missing Cell.missing Cell.missing)
          (Author.mk Cell.missing Cell.missing Cell.missing Cell.missing)
          (Author.mk Cell.missing Cell.missing Cell.missing Cell.missing)
          (Author.mk Cell.missing Cell.missing Cell.missing Cell.missing)].map
          (fun a => String.intercalate "\n" (articleParts (fun _ => none) a)))) :=
  ⟨by decide, (c6_article_blocks_in_order (fun _ => none) _ (by decide)).1⟩

/-- C4: date normalization returns three empty strings when the parse fails,
and a `publication_date` element (journal print, journal online, article
online) is emitted exactly when the date resolves; its `month`, `day` and
`year` lines are emitted exactly as often as the containing
`publication_date` element, so no partial date element ever appears. -/
theorem c4_all_or_nothing_dates (parse : Cell → Option Date) (j : JournalRec)
    (a : ArticleRec) :
    (∀ v : Cell, parse v = none → ymd parse v = ("", "", ""))
  ∧ countPre "    <publication_date media_type=\x27print\x27>" (journalIssueParts parse j) =
      (if (parse j.pub_date_print).isSome = true then 1 else 0)
  ∧ countPre "    <publication_date media_type=\x27online\x27>" (journalIssueParts parse j) =
      (if (parse j.pub_date_online).isSome = true then 1 else 0)
  ∧ countPre "        <month>" (journalIssueParts parse j) =
      (if (parse j.pub_date_print).isSome = true then 1 else 0) +
      (if (parse j.pub_date_online).isSome = true then 1 else 0)
  ∧ countPre "        <day>" (journalIssueParts parse j) =
      (if (parse j.pub_date_print).isSome = true then 1 else 0) +
      (if (parse j.pub_date_online).isSome = true then 1 else 0)
  ∧ countPre "        <year>" (journalIssueParts parse j) =
      (if (parse j.pub_date_print).isSome = true then 1 else 0) +
      (if (parse j.pub_date_online).isSome = true then 1 else 0)
  ∧ countPre "        <publication_date media_type=\x27online\x27>" (articleParts parse a) =
      (if (parse a.publication_date).isSome = true then 1 else 0)
  ∧ countPre "            <month>" (articleParts parse a) =
      (if (parse a.publication_date).isSome = true then 1 else 0)
  ∧ countPre "            <day>" (articleParts parse a) =
      (if (parse a.publication_date).isSome = true then 1 else 0)
  ∧ countPre "            <year>" (articleParts parse a) =
      (if (parse a.publication_date).isSome = true then 1 else 0) :=
  ⟨fun v hv => ymd_none parse v hv, cntIssue_pdp parse j, cntIssue_pdo parse j,
   cntIssue_month parse j, cntIssue_day parse j, cntIssue_year parse j,
   cntArt_pd parse a, cntArt_month parse a, cntArt_day parse a, cntArt_year parse a⟩

/-- Witness for C4: the always-failing parser on a concrete cell. -/
theorem c4_all_or_nothing_dates_w :
    (fun _ : Cell => (none : Option Date)) Cell.missing = none ∧
    ymd (fun _ : Cell => (none : Option Date)) Cell.missing = ("", "", "") :=
  ⟨rfl,
    (c4_all_or_nothing_dates (fun _ => none)
      (JournalRec.mk Cell.missing Cell.missing Cell.missing Cell.missing Cell.missing
        Cell.missing Cell.missing Cell.missing Cell.missing Cell.missing
        Cell.missing Cell.missing)
      (ArticleRec.mk Cell.missing Cell.missing Cell.missing Cell.missing
        (Author.mk Cell.missing Cell.missing Cell.missing Cell.missing)
        (Author.mk Cell.missing Cell.missing Cell.missing Cell.missing)
        (Author.mk Cell.missing Cell.missing Cell.missing Cell.missing)
        (Author.mk Cell.missing Cell.missing Cell.missing Cell.missing)
        (Author.mk Cell.missing Cell.missing Cell.missing Cell.missing))).1
      Cell.missing rfl⟩

/-- C7: URL normalization returns the trimmed value exactly when it starts
with `http://`, `https://` or `ftp://`, and the empty string otherwise; and
when the journal (resp. issue) URL normalizes to empty, no `resource` line
appears in the journal metadata (resp. journal issue) fragment. -/
theorem c7_url_normalization (v : Cell) (parse : Cell → Option Date) (j : JournalRec) :
    (urlOrEmpty v = if schemeShape (safeC v) then safeC v else "")
  ∧ (urlOrEmpty j.journal_url = "" →
      countPre "        <resource>" (journalMetadataParts j) = 0)
  ∧ (urlOrEmpty j.issue_url = "" →
      countPre "        <resource>" (journalIssueParts parse j) = 0) := by
  refine ⟨urlOrEmpty_eq v, fun h => ?_, fun h => ?_⟩
  · rw [cntMeta_resource]
    simp [h]
  · rw [cntIssue_resource]
    simp [h]

/-- Witness for C7 at a concrete schemeless journal URL. -/
theorem c7_url_normalization_w :
    urlOrEmpty (JournalRec.mk Cell.missing Cell.missing Cell.missing Cell.missing
      Cell.missing (Cell.str "x.org") Cell.missing Cell.missing Cell.missing
      Cell.missing Cell.missing Cell.missing).journal_url = "" ∧
    countPre "        <resource>"
      (journalMetadataParts (JournalRec.mk Cell.missing Cell.missing Cell.missing
        Cell.missing Cell.missing (Cell.str "x.org") Cell.missing Cell.missing
        Cell.missing Cell.missing Cell.missing Cell.missing)) = 0 :=
  ⟨by decide,
    (c7_url_normalization Cell.missing (fun _ => none)
      (JournalRec.mk Cell.missing Cell.missing Cell.missing Cell.missing
        Cell.missing (Cell.str "x.org") Cell.missing Cell.missing Cell.missing
        Cell.missing Cell.missing Cell.missing)).2.1 (by decide)⟩

/-- C9: the `full_title` line is always emitted, even when the normalized
title is empty; `abbrev_title`, the two `issn` lines and the
`journal_metadata` `doi_data` block are emitted exactly when their underlying
normalized values are non-empty (the `doi_data` block when DOI or URL is). -/
theorem c9_journal_metadata_emission (j : JournalRec) :
    ("    <full_title>" ++ safeC j.journal_title ++ "</full_title>")
        ∈ journalMetadataParts j
  ∧ countPre "    <full_title>" (journalMetadataParts j) = 1
  ∧ countPre "    <abbrev_title>" (journalMetadataParts j) =
      (if safeC j.abbrevTitle ≠ "" then 1 else 0)
  ∧ countPre "    <issn media_type=\x27print\x27>" (journalMetadataParts j) =
      (if fmtIssn j.print_issn ≠ "" then 1 else 0)
  ∧ countPre "    <issn media_type=\x27electronic\x27>" (journalMetadataParts j) =
      (if fmtIssn j.electronic_issn ≠ "" then 1 else 0)
  ∧ countPre "    <doi_data>" (journalMetadataParts j) =
      (if safeC j.journal_doi ≠ "" ∨ urlOrEmpty j.journal_url ≠ "" then 1 else 0) := by
  refine ⟨?_, cntMeta_full j, cntMeta_abbrev j, cntMeta_issnp j, cntMeta_issne j,
    cntMeta_doidata j⟩
  unfold journalMetadataParts
  simp

/-- C10: in every emitted `person_name` entry (a slot with non-empty given
name), the `given_name` element holds the first name and middle name joined by
a single space — just the first name when the middle name is empty — and the
`surname` and `affiliation` lines are each present exactly when their value is
non-empty, while the entry itself is always produced. -/
theorem c10_person_name_content (seq : String) (a : Author)
    (hf : safeC a.fname ≠ "") :
    personParts seq a =
      ["            <person_name contributor_role=\x27author\x27 sequence=\x27"
          ++ seq ++ "\x27>",
       "                <given_name>" ++
         (if safeC a.mname = "" then safeC a.fname
          else safeC a.fname ++ " " ++ safeC a.mname) ++ "</given_name>"]
      ++ (if safeC a.lname ≠ "" then
            ["                <surname>" ++ safeC a.lname ++ "</surname>"] else [])
      ++ (if safeC a.inst ≠ "" then
            ["                <affiliation>" ++ safeC a.inst ++ "</affiliation>"] else [])
      ++ ["            </person_name>"]
  ∧ countPre "            <person_name" (personParts seq a) = 1
  ∧ countPre "                <surname>" (personParts seq a) =
      (if safeC a.lname ≠ "" then 1 else 0)
  ∧ countPre "                <affiliation>" (personParts seq a) =
      (if safeC a.inst ≠ "" then 1 else 0) := by
  refine ⟨?_, cntPerson_open seq a, cntPerson_surname seq a, cntPerson_affil seq a⟩
  have hg : String.mk (trimChars (String.intercalate " "
      ([safeC a.fname, safeC a.mname].filter (fun v => v ≠ ""))).data) =
      (if safeC a.mname = "" then safeC a.fname
       else safeC a.fname ++ " " ++ safeC a.mname) := by
    by_cases hm : safeC a.mname = ""
    · rw [if_pos hm, hm]
      have hfl : [safeC a.fname, ""].filter (fun v => v ≠ "") = [safeC a.fname] := by
        simp [List.filter_cons, hf]
      rw [hfl, intercalate_one, trim_safeC]
    · rw [if_neg hm]
      have hfl : [safeC a.fname, safeC a.mname].filter (fun v => v ≠ "")
          = [safeC a.fname, safeC a.mname] := by
        simp [List.filter_cons, hf, hm]
      rw [hfl, intercalate_two]
      exact trim_join _ _ hf hm (safeC_head a.fname) (safeC_getLast a.mname)
  simp only [personParts]
  rw [hg]

/-- Witness for C10: an author with a first name, no middle name and a
surname. -/
theorem c10_person_name_content_w :
    safeC (Author.mk (Cell.str "Ada") Cell.missing (Cell.str "Lovelace")
      Cell.missing).fname ≠ "" ∧
    countPre "            <person_name"
      (personParts "first"
        (Author.mk (Cell.str "Ada") Cell.missing (Cell.str "Lovelace") Cell.missing)) = 1 :=
  ⟨by decide,
    (c10_person_name_content "first"
      (Author.mk (Cell.str "Ada") Cell.missing (Cell.str "Lovelace") Cell.missing)
      (by decide)).2.1⟩
